import Mathlib

/-!
BalancingBpCpp: the ship pawn

A shallow embedding of `Source/BalancingBpCpp/BalancingBpCppPawn.cpp`.

* The pawn is a record of its member variables; every member function is a
  function from the pawn (and what the engine answers) to an `Outcome`: the
  pawn afterwards, the requests issued to the engine in program order, and the
  fault at which execution stopped, if any.
* Scalars (`float` in the source) are the elements of a linear ordered field
  `α`: arithmetic is exact, rounding is not modelled.
* The engine is a collaborator: what it answers (axis values, hit results,
  rotations, the world pointer) arrives in an `Engine` record; what the pawn
  asks of it is logged as a `Request`.
-/

/-! ## Engine types -/

/-- Engine vector type `FVector`. -/
structure FVector (α : Type) where
  X : α
  Y : α
  Z : α
deriving DecidableEq

/-- Engine rotation type `FRotator` (degrees). -/
structure FRotator (α : Type) where
  Pitch : α
  Yaw : α
  Roll : α
deriving DecidableEq

namespace FVector

variable {α : Type} [LinearOrderedField α]

/-- Engine constant `FVector::ZeroVector`. -/
def ZeroVector : FVector α := ⟨0, 0, 0⟩

/-- Engine constant `KINDA_SMALL_NUMBER` (1e-4). -/
def KINDA_SMALL_NUMBER : α := 1 / 10000

/-- Engine constant `SMALL_NUMBER` (1e-8), the default tolerance of `GetSafeNormal2D`. -/
def SMALL_NUMBER : α := 1 / 100000000

/-- Engine `FVector::operator+`. -/
def add (v w : FVector α) : FVector α := ⟨v.X + w.X, v.Y + w.Y, v.Z + w.Z⟩

/-- Engine `FVector::operator-`. -/
def sub (v w : FVector α) : FVector α := ⟨v.X - w.X, v.Y - w.Y, v.Z - w.Z⟩

/-- Engine `FVector::operator*(float)`. -/
def scale (v : FVector α) (s : α) : FVector α := ⟨v.X * s, v.Y * s, v.Z * s⟩

/-- Engine `FVector::operator|`, the dot product. -/
def dot (v w : FVector α) : α := v.X * w.X + v.Y * w.Y + v.Z * w.Z

instance : Add (FVector α) := ⟨add⟩
instance : Sub (FVector α) := ⟨sub⟩
instance : HMul (FVector α) α (FVector α) := ⟨scale⟩

/-- Engine `FVector::SizeSquared`. -/
def SizeSquared (v : FVector α) : α := v.X * v.X + v.Y * v.Y + v.Z * v.Z

/-- Engine `FVector::GetClampedToMaxSize`; `InvSqrt` is `FMath::InvSqrt`. -/
def GetClampedToMaxSize (InvSqrt : α → α) (v : FVector α) (MaxSize : α) : FVector α :=
  if MaxSize < KINDA_SMALL_NUMBER then ZeroVector
  else
    let VSq := v.SizeSquared
    if VSq > MaxSize * MaxSize then
      let Scale := MaxSize * InvSqrt VSq
      ⟨v.X * Scale, v.Y * Scale, v.Z * Scale⟩
    else v

/-- Engine `FVector::GetSafeNormal2D`; `InvSqrt` is `FMath::InvSqrt`. -/
def GetSafeNormal2D (InvSqrt : α → α) (v : FVector α) (Tolerance : α) : FVector α :=
  let SquareSum := v.X * v.X + v.Y * v.Y
  if SquareSum = 1 then
    if v.Z = 0 then v else ⟨v.X, v.Y, 0⟩
  else if SquareSum < Tolerance then ZeroVector
  else
    let Scale := InvSqrt SquareSum
    ⟨v.X * Scale, v.Y * Scale, 0⟩

/-- Engine `FVector::ProjectOnToNormal`. -/
def ProjectOnToNormal (v Normal : FVector α) : FVector α := Normal * (dot v Normal)

/-- Engine `FVector::VectorPlaneProject`. -/
def VectorPlaneProject (V PlaneNormal : FVector α) : FVector α :=
  V - ProjectOnToNormal V PlaneNormal

end FVector

/-- Engine hit record `FHitResult`, the fields the pawn reads. -/
structure FHitResult (α : Type) where
  bBlockingHit : Bool
  bStartPenetrating : Bool
  Time : α
  Normal : FVector α

/-- Engine `FHitResult::IsValidBlockingHit`. -/
def FHitResult.IsValidBlockingHit {α : Type} (h : FHitResult α) : Bool :=
  h.bBlockingHit && !h.bStartPenetrating

/-- Names of input bindings (`FName`). -/
inductive FName
  | MoveForward
  | MoveRight
  | FireForward
  | FireRight
  | SwitchProjectile
deriving DecidableEq

/-- The world object `GetWorld` points to. -/
structure UWorld where
  id : Nat
deriving DecidableEq

/-- A sound asset. -/
structure USoundBase where
  id : Nat
deriving DecidableEq

/-- A class object (`UClass`), as the projectile class members of the pawn point to and
as `SpawnActor` receives. -/
structure UClass where
  id : Nat
deriving DecidableEq

/-- Member functions bound as timer callbacks. -/
inductive TimerCallback
  | ShotTimerExpired
deriving DecidableEq

/-- Engine `FTimerHandle`: `none` is the invalid handle, `some (f, r)` is bound to a
pending one-shot timer that calls `f` after `r` seconds. -/
abbrev FTimerHandle (α : Type) := Option (TimerCallback × α)

/-- What the engine answers during one call into the pawn. -/
structure Engine (α : Type) where
  /-- `FMath::InvSqrt` -/
  InvSqrt : α → α
  /-- `FVector::Rotation` -/
  Rotation : FVector α → FRotator α
  /-- `FRotator::RotateVector` -/
  RotateVector : FRotator α → FVector α → FVector α
  /-- `APawn::GetInputAxisValue` -/
  GetInputAxisValue : FName → α
  /-- the hit `USceneComponent::MoveComponent` writes to its out-parameter -/
  MoveComponent : FVector α → FRotator α → Bool → FHitResult α
  /-- `AActor::GetActorLocation`, as read inside `FireShot` -/
  GetActorLocation : FVector α
  /-- `AActor::GetWorld`; `none` is the null pointer -/
  GetWorld : Option UWorld

/-- Requests the pawn issues to the engine. -/
inductive Request (α : Type)
  | MoveComponent (Delta : FVector α) (NewRotation : FRotator α) (bSweep : Bool)
  | SpawnActor (Class : UClass) (Location : FVector α) (Rotation : FRotator α)
  | SetTimer (Callback : TimerCallback) (Rate : α) (bLoop : Bool)
  | PlaySoundAtLocation (Sound : USoundBase) (Location : FVector α)
deriving DecidableEq

namespace Request

variable {α : Type}

/-- Is the request a body move? -/
def isMoveComponent : Request α → Bool
  | MoveComponent _ _ _ => true
  | _ => false

/-- Is the request an actor spawn? -/
def isSpawnActor : Request α → Bool
  | SpawnActor _ _ _ => true
  | _ => false

/-- Is the request a timer schedule? -/
def isSetTimer : Request α → Bool
  | SetTimer _ _ _ => true
  | _ => false

/-- Is the request a sound playback? -/
def isPlaySoundAtLocation : Request α → Bool
  | PlaySoundAtLocation _ _ => true
  | _ => false

end Request

/-- Faults that stop execution. -/
inductive Fault
  /-- a member of `UWorld` is accessed through the null pointer -/
  | NullWorldDereference
  /-- `GetDefaultObject` is called through a null projectile class pointer -/
  | NullClassDereference
deriving DecidableEq

/-! ## The pawn -/

/-- Member variables of `ABalancingBpCppPawn` that the member functions read or write.
`fireMode` is a C++ integer; the values that occur stay far from the range ends, so it
is an `Int` here. `FireSound` and the three projectile class members are pointers, `none`
being the null pointer. -/
structure ABalancingBpCppPawn (α : Type) where
  MoveSpeed : α
  GunOffset : FVector α
  FireRate : α
  bCanFire : Bool
  fireMode : Int
  FireSound : Option USoundBase
  ProjectileSlow : Option UClass
  ProjectileRegular : Option UClass
  ProjectileFast : Option UClass
  TimerHandle_ShotTimerExpired : FTimerHandle α

/-- Result of a call into the pawn. -/
structure Outcome (α : Type) where
  pawn : ABalancingBpCppPawn α
  requests : List (Request α)
  fault : Option Fault

/-- Binding constant `MoveForwardBinding`. -/
def MoveForwardBinding : FName := FName.MoveForward
/-- Binding constant `MoveRightBinding`. -/
def MoveRightBinding : FName := FName.MoveRight
/-- Binding constant `FireForwardBinding`. -/
def FireForwardBinding : FName := FName.FireForward
/-- Binding constant `FireRightBinding`. -/
def FireRightBinding : FName := FName.FireRight

namespace ABalancingBpCppPawn

variable {α : Type} [LinearOrderedField α]

/-- The constructor `ABalancingBpCppPawn::ABalancingBpCppPawn`. Its body assigns
`MoveSpeed`, `GunOffset`, `FireRate` and `bCanFire`. It assigns none of `fireMode`,
`FireSound`, `ProjectileSlow`, `ProjectileRegular` and `ProjectileFast`: these keep what
the member declarations in the class header and the class defaults give them, and arrive
as the parameters `fireModeDecl`, `FireSoundDecl`, `ProjectileSlowDecl`,
`ProjectileRegularDecl` and `ProjectileFastDecl`; each of the four pointers may be null.
The timer handle is default-constructed, which is the invalid handle. -/
def ctor (fireModeDecl : Int) (FireSoundDecl : Option USoundBase)
    (ProjectileSlowDecl ProjectileRegularDecl ProjectileFastDecl : Option UClass) :
    ABalancingBpCppPawn α :=
  { MoveSpeed := 1000
    GunOffset := ⟨90, 0, 0⟩
    FireRate := 1 / 10
    bCanFire := true
    fireMode := fireModeDecl
    FireSound := FireSoundDecl
    ProjectileSlow := ProjectileSlowDecl
    ProjectileRegular := ProjectileRegularDecl
    ProjectileFast := ProjectileFastDecl
    TimerHandle_ShotTimerExpired := none }

/-- Modelled from the spec: the declaration of the member `fireMode` in the class header
`BalancingBpCppPawn.h`, which is not among the sources and which alone gives `fireMode`
its value in a constructed pawn. The spec gives `fireMode` the domain 1, 2, 3 and starts
its cycle at `fireMode` = 1. -/
def fireModeDeclared : Int := 1

/-- The member function `HandleSwitchProjectile`. -/
def HandleSwitchProjectile (p : ABalancingBpCppPawn α) : ABalancingBpCppPawn α :=
  let p1 := { p with fireMode := p.fireMode + 1 }
  if p1.fireMode > 3 then { p1 with fireMode := 1 } else p1

/-- The member function `ShotTimerExpired`. -/
def ShotTimerExpired (p : ABalancingBpCppPawn α) : ABalancingBpCppPawn α :=
  { p with bCanFire := true }

/-- One statement
`if (fireMode == k) World->SpawnActor(Projectile->GetDefaultObject()->GetClass(), SpawnLocation, FireRotation);`
of `FireShot`, where `test` is `fireMode == k` and `Projectile` the member named: the
requests it issues, or `none` when the test passes and `Projectile` is null, so that the
call of `GetDefaultObject` through it faults before `SpawnActor` is reached. The class of
the default object of a class is that class. -/
def SpawnIfMode (test : Prop) [Decidable test] (Projectile : Option UClass)
    (SpawnLocation : FVector α) (FireRotation : FRotator α) : Option (List (Request α)) :=
  if test then
    match Projectile with
    | some c => some [Request.SpawnActor c SpawnLocation FireRotation]
    | none => none
  else some []

/-- The block of `FireShot` guarded by `if (World != nullptr)`: the three
`if (fireMode == k)` statements in program order. The result is the requests issued and
the fault at which the block stopped, if any. -/
def FireShotSpawn (p : ABalancingBpCppPawn α) (SpawnLocation : FVector α)
    (FireRotation : FRotator α) : List (Request α) × Option Fault :=
  match SpawnIfMode (p.fireMode = 1) p.ProjectileSlow SpawnLocation FireRotation with
  | none => ([], some Fault.NullClassDereference)
  | some r1 =>
    match SpawnIfMode (p.fireMode = 2) p.ProjectileRegular SpawnLocation FireRotation with
    | none => (r1, some Fault.NullClassDereference)
    | some r2 =>
      match SpawnIfMode (p.fireMode = 3) p.ProjectileFast SpawnLocation FireRotation with
      | none => (r1 ++ r2, some Fault.NullClassDereference)
      | some r3 => (r1 ++ r2 ++ r3, none)

/-- The member function `FireShot`. The three `if (fireMode == k)` statements sit inside
`if (World != nullptr)`; a fault in them leaves the pawn as it was. The assignment
`bCanFire = false` and the call `World->GetTimerManager().SetTimer(...)` come after that
block, outside it. -/
def FireShot (e : Engine α) (p : ABalancingBpCppPawn α) (FireDirection : FVector α) :
    Outcome α :=
  if p.bCanFire = true then
    if FireDirection.SizeSquared > 0 then
      let FireRotation := e.Rotation FireDirection
      let SpawnLocation := e.GetActorLocation + e.RotateVector FireRotation p.GunOffset
      let World := e.GetWorld
      match World with
      | none =>
        let p1 := { p with bCanFire := false }
        ⟨p1, [], some Fault.NullWorldDereference⟩
      | some _ =>
        match FireShotSpawn p SpawnLocation FireRotation with
        | (spawns, some f) => ⟨p, spawns, some f⟩
        | (spawns, none) =>
          let p1 := { p with bCanFire := false }
          let p2 := { p1 with
            TimerHandle_ShotTimerExpired := some (TimerCallback.ShotTimerExpired, p1.FireRate) }
          let timer : List (Request α) :=
            [Request.SetTimer TimerCallback.ShotTimerExpired p1.FireRate false]
          let sound : List (Request α) :=
            match p2.FireSound with
            | some s => [Request.PlaySoundAtLocation s e.GetActorLocation]
            | none => []
          ⟨{ p2 with bCanFire := false }, spawns ++ timer ++ sound, none⟩
    else ⟨p, [], none⟩
  else ⟨p, [], none⟩

/-- The local `Movement` of `Tick`: the clamped move direction times `MoveSpeed` times
`DeltaSeconds`. -/
def TickMovement (e : Engine α) (p : ABalancingBpCppPawn α) (DeltaSeconds : α) : FVector α :=
  let ForwardValue := e.GetInputAxisValue MoveForwardBinding
  let RightValue := e.GetInputAxisValue MoveRightBinding
  let MoveDirection := FVector.GetClampedToMaxSize e.InvSqrt ⟨ForwardValue, RightValue, 0⟩ 1
  MoveDirection * p.MoveSpeed * DeltaSeconds

/-- The local `Deflection` of `Tick`, from the movement and the hit of the first move. -/
def TickDeflection (e : Engine α) (Movement : FVector α) (Hit : FHitResult α) : FVector α :=
  let Normal2D := FVector.GetSafeNormal2D e.InvSqrt Hit.Normal FVector.SMALL_NUMBER
  FVector.VectorPlaneProject Movement Normal2D * (1 - Hit.Time)

/-- The body moves of `Tick`, in program order. -/
def TickMoves (e : Engine α) (p : ABalancingBpCppPawn α) (DeltaSeconds : α) :
    List (Request α) :=
  let Movement := TickMovement e p DeltaSeconds
  if Movement.SizeSquared > 0 then
    let NewRotation := e.Rotation Movement
    let Hit := e.MoveComponent Movement NewRotation true
    if Hit.IsValidBlockingHit = true then
      let Deflection := TickDeflection e Movement Hit
      [Request.MoveComponent Movement NewRotation true,
       Request.MoveComponent Deflection NewRotation true]
    else [Request.MoveComponent Movement NewRotation true]
  else []

/-- The member function `Tick`. -/
def Tick (e : Engine α) (p : ABalancingBpCppPawn α) (DeltaSeconds : α) : Outcome α :=
  let moves := TickMoves e p DeltaSeconds
  let FireForwardValue := e.GetInputAxisValue FireForwardBinding
  let FireRightValue := e.GetInputAxisValue FireRightBinding
  let FireDirection : FVector α := ⟨FireForwardValue, FireRightValue, 0⟩
  let o := FireShot e p FireDirection
  ⟨o.pawn, moves ++ o.requests, o.fault⟩

end ABalancingBpCppPawn

/-! ## Sequences of calls -/

/-- A call the host makes into the pawn, with what the engine answers during it. -/
inductive Call (α : Type)
  | HandleSwitchProjectile
  | Tick (e : Engine α) (DeltaSeconds : α)
  | FireShot (e : Engine α) (FireDirection : FVector α)
  | ShotTimerExpired

/-- Is the call the timer callback? -/
def Call.isShotTimerExpired {α : Type} : Call α → Bool
  | Call.ShotTimerExpired => true
  | _ => false

section Calls

variable {α : Type} [LinearOrderedField α]

/-- Sample engine answers for a pawn that moves and fires along the +X axis: the rotation
of such a vector is the zero rotator, which rotates every vector to itself, and `InvSqrt`
is exact at 1, the only argument it receives on these inputs. Axis values, the hit of a
move, the actor location and the world pointer are as given. -/
def sampleEngine (Forward Right FireForward FireRight : α) (Hit : FHitResult α)
    (Location : FVector α) (World : Option UWorld) : Engine α :=
  { InvSqrt := fun _ => 1
    Rotation := fun _ => ⟨0, 0, 0⟩
    RotateVector := fun _ v => v
    GetInputAxisValue := fun b =>
      match b with
      | FName.MoveForward => Forward
      | FName.MoveRight => Right
      | FName.FireForward => FireForward
      | FName.FireRight => FireRight
      | FName.SwitchProjectile => 0
    MoveComponent := fun _ _ _ => Hit
    GetActorLocation := Location
    GetWorld := World }

/-- The hit record `FHitResult Hit(1.f)` before any move has written to it. -/
def noHit : FHitResult α := ⟨false, false, 1, FVector.ZeroVector⟩

/-- Perform one call. -/
def call (p : ABalancingBpCppPawn α) : Call α → Outcome α
  | Call.HandleSwitchProjectile => ⟨p.HandleSwitchProjectile, [], none⟩
  | Call.Tick e dt => p.Tick e dt
  | Call.FireShot e d => p.FireShot e d
  | Call.ShotTimerExpired => ⟨p.ShotTimerExpired, [], none⟩

/-- Perform a sequence of calls; execution stops at the first fault. -/
def run (p : ABalancingBpCppPawn α) : List (Call α) → Outcome α
  | [] => ⟨p, [], none⟩
  | c :: cs =>
    let o := call p c
    match o.fault with
    | some f => ⟨o.pawn, o.requests, some f⟩
    | none =>
      let o2 := run o.pawn cs
      ⟨o2.pawn, o.requests ++ o2.requests, o2.fault⟩

/-- One step of the host. The host may make any call into the pawn, and the step exists
when the call returns without a fault. The timer callback is different: the host runs it
only when the timer handle is bound to a pending timer, and the timer, being one-shot, is
gone once it has fired. -/
def hostStep (p : ABalancingBpCppPawn α) : Call α → Option (ABalancingBpCppPawn α)
  | Call.ShotTimerExpired =>
    match p.TimerHandle_ShotTimerExpired with
    | some _ => some ({ p with TimerHandle_ShotTimerExpired := none }).ShotTimerExpired
    | none => none
  | Call.HandleSwitchProjectile => some p.HandleSwitchProjectile
  | Call.Tick e dt =>
    match (p.Tick e dt).fault with
    | none => some (p.Tick e dt).pawn
    | some _ => none
  | Call.FireShot e d =>
    match (p.FireShot e d).fault with
    | none => some (p.FireShot e d).pawn
    | some _ => none

/-- A sequence of host steps; `none` when one of them does not exist. -/
def hostRun (p : ABalancingBpCppPawn α) : List (Call α) → Option (ABalancingBpCppPawn α)
  | [] => some p
  | c :: cs =>
    match hostStep p c with
    | some q => hostRun q cs
    | none => none

end Calls

/-! ## The paths of `FireShot` -/

/-- A statement of the spawn block issues nothing but a spawn at the given place. -/
theorem SpawnIfMode_mem {α : Type} (test : Prop) [Decidable test]
    (Projectile : Option UClass) (l : FVector α) (r : FRotator α) (rs : List (Request α))
    (h : ABalancingBpCppPawn.SpawnIfMode test Projectile l r = some rs) :
    ∀ x ∈ rs, ∃ c, x = Request.SpawnActor c l r := by
  unfold ABalancingBpCppPawn.SpawnIfMode at h
  split at h
  · cases Projectile with
    | none => cases h
    | some c =>
      simp only [Option.some.injEq] at h
      subst h
      intro x hx
      exact ⟨c, List.mem_singleton.mp hx⟩
  · simp only [Option.some.injEq] at h
    subst h
    intro x hx
    cases hx

/-- The spawn block issues nothing but spawns at the given place. -/
theorem FireShotSpawn_mem {α : Type} (p : ABalancingBpCppPawn α) (l : FVector α)
    (r : FRotator α) :
    ∀ x ∈ (p.FireShotSpawn l r).1, ∃ c, x = Request.SpawnActor c l r := by
  unfold ABalancingBpCppPawn.FireShotSpawn
  split
  · intro x hx; cases hx
  · rename_i r1 h1
    split
    · exact SpawnIfMode_mem _ _ _ _ _ h1
    · rename_i r2 h2
      split
      · intro x hx
        rcases List.mem_append.mp hx with h | h
        · exact SpawnIfMode_mem _ _ _ _ _ h1 x h
        · exact SpawnIfMode_mem _ _ _ _ _ h2 x h
      · rename_i r3 h3
        intro x hx
        rcases List.mem_append.mp hx with h | h
        · rcases List.mem_append.mp h with h | h
          · exact SpawnIfMode_mem _ _ _ _ _ h1 x h
          · exact SpawnIfMode_mem _ _ _ _ _ h2 x h
        · exact SpawnIfMode_mem _ _ _ _ _ h3 x h

/-- The only fault of the spawn block is the access through a null class pointer. -/
theorem FireShotSpawn_fault {α : Type} (p : ABalancingBpCppPawn α) (l : FVector α)
    (r : FRotator α) :
    (p.FireShotSpawn l r).2 = none ∨
      (p.FireShotSpawn l r).2 = some Fault.NullClassDereference := by
  unfold ABalancingBpCppPawn.FireShotSpawn
  split
  · right; rfl
  · split
    · right; rfl
    · split
      · right; rfl
      · left; rfl

/-- The spawn block with `fireMode` = 1: one spawn of the class `ProjectileSlow` points
to, or the fault when it is null. -/
theorem FireShotSpawn_of_mode1 {α : Type} (p : ABalancingBpCppPawn α) (l : FVector α)
    (r : FRotator α) (h : p.fireMode = 1) :
    p.FireShotSpawn l r =
      match p.ProjectileSlow with
      | some c => ([Request.SpawnActor c l r], none)
      | none => ([], some Fault.NullClassDereference) := by
  cases hs : p.ProjectileSlow <;>
    simp [ABalancingBpCppPawn.FireShotSpawn, ABalancingBpCppPawn.SpawnIfMode, h, hs]

/-- The spawn block with `fireMode` = 2: one spawn of the class `ProjectileRegular`
points to, or the fault when it is null. -/
theorem FireShotSpawn_of_mode2 {α : Type} (p : ABalancingBpCppPawn α) (l : FVector α)
    (r : FRotator α) (h : p.fireMode = 2) :
    p.FireShotSpawn l r =
      match p.ProjectileRegular with
      | some c => ([Request.SpawnActor c l r], none)
      | none => ([], some Fault.NullClassDereference) := by
  cases hs : p.ProjectileRegular <;>
    simp [ABalancingBpCppPawn.FireShotSpawn, ABalancingBpCppPawn.SpawnIfMode, h, hs]

/-- The spawn block with `fireMode` = 3: one spawn of the class `ProjectileFast` points
to, or the fault when it is null. -/
theorem FireShotSpawn_of_mode3 {α : Type} (p : ABalancingBpCppPawn α) (l : FVector α)
    (r : FRotator α) (h : p.fireMode = 3) :
    p.FireShotSpawn l r =
      match p.ProjectileFast with
      | some c => ([Request.SpawnActor c l r], none)
      | none => ([], some Fault.NullClassDereference) := by
  cases hs : p.ProjectileFast <;>
    simp [ABalancingBpCppPawn.FireShotSpawn, ABalancingBpCppPawn.SpawnIfMode, h, hs]

/-- The spawn block with `fireMode` other than 1, 2, 3: nothing is done. -/
theorem FireShotSpawn_outside {α : Type} (p : ABalancingBpCppPawn α) (l : FVector α)
    (r : FRotator α) (h1 : p.fireMode ≠ 1) (h2 : p.fireMode ≠ 2) (h3 : p.fireMode ≠ 3) :
    p.FireShotSpawn l r = ([], none) := by
  simp [ABalancingBpCppPawn.FireShotSpawn, ABalancingBpCppPawn.SpawnIfMode, h1, h2, h3]

/-- With the gate closed, `FireShot` returns at its first test. -/
theorem FireShot_of_not_bCanFire {α : Type} [LinearOrderedField α] (e : Engine α)
    (p : ABalancingBpCppPawn α) (d : FVector α) (h : p.bCanFire = false) :
    p.FireShot e d = ⟨p, [], none⟩ := by
  unfold ABalancingBpCppPawn.FireShot
  rw [if_neg (by rw [h]; decide)]

/-- Without a fire direction, `FireShot` returns at its second test. -/
theorem FireShot_of_no_direction {α : Type} [LinearOrderedField α] (e : Engine α)
    (p : ABalancingBpCppPawn α) (d : FVector α) (h : ¬ 0 < d.SizeSquared) :
    p.FireShot e d = ⟨p, [], none⟩ := by
  unfold ABalancingBpCppPawn.FireShot
  simp only [gt_iff_lt, h, if_false, ite_self]

/-- With the gate open, a fire direction of non-zero magnitude and no world, `FireShot`
skips the spawn block, assigns `bCanFire = false` and stops at `World->GetTimerManager()`. -/
theorem FireShot_of_null_world {α : Type} [LinearOrderedField α] (e : Engine α)
    (p : ABalancingBpCppPawn α) (d : FVector α)
    (hc : p.bCanFire = true) (hd : 0 < d.SizeSquared) (hw : e.GetWorld = none) :
    p.FireShot e d = ⟨{ p with bCanFire := false }, [], some Fault.NullWorldDereference⟩ := by
  unfold ABalancingBpCppPawn.FireShot
  simp only [hc, hd, hw, if_true, gt_iff_lt]

/-- With the gate open, a fire direction of non-zero magnitude and a world, a fault in
the spawn block ends `FireShot` with the pawn as it was. -/
theorem FireShot_of_spawn_fault {α : Type} [LinearOrderedField α] (e : Engine α)
    (p : ABalancingBpCppPawn α) (d : FVector α) (w : UWorld)
    (hc : p.bCanFire = true) (hd : 0 < d.SizeSquared) (hw : e.GetWorld = some w)
    (spawns : List (Request α)) (f : Fault)
    (hs : p.FireShotSpawn (e.GetActorLocation + e.RotateVector (e.Rotation d) p.GunOffset)
      (e.Rotation d) = (spawns, some f)) :
    p.FireShot e d = ⟨p, spawns, some f⟩ := by
  unfold ABalancingBpCppPawn.FireShot
  simp only [hc, hd, hw, if_true, gt_iff_lt, hs]

/-- The outcome of a shot: the requests of the spawn block, the timer, the sound when
one is configured; the gate closed and the timer handle bound. -/
theorem FireShot_success {α : Type} [LinearOrderedField α] (e : Engine α)
    (p : ABalancingBpCppPawn α) (d : FVector α) (w : UWorld)
    (hc : p.bCanFire = true) (hd : 0 < d.SizeSquared) (hw : e.GetWorld = some w)
    (spawns : List (Request α))
    (hs : p.FireShotSpawn (e.GetActorLocation + e.RotateVector (e.Rotation d) p.GunOffset)
      (e.Rotation d) = (spawns, none)) :
    p.FireShot e d =
      ⟨{ p with bCanFire := false,
                TimerHandle_ShotTimerExpired := some (TimerCallback.ShotTimerExpired, p.FireRate) },
       spawns ++ [Request.SetTimer TimerCallback.ShotTimerExpired p.FireRate false] ++
        (match p.FireSound with
          | some s => [Request.PlaySoundAtLocation s e.GetActorLocation]
          | none => []),
       none⟩ := by
  unfold ABalancingBpCppPawn.FireShot
  simp only [hc, hd, hw, if_true, gt_iff_lt, hs]

/-- The four ways a call to `FireShot` ends: nothing done; stopped at the null world
with the gate closed and nothing requested; stopped in the spawn block at a null class
with the pawn as it was; or a shot, which leaves the gate closed and the timer handle
bound. -/
theorem FireShot_cases {α : Type} [LinearOrderedField α] (e : Engine α)
    (p : ABalancingBpCppPawn α) (d : FVector α) :
    ((p.bCanFire = false ∨ ¬ 0 < d.SizeSquared) ∧ p.FireShot e d = ⟨p, [], none⟩) ∨
    (p.bCanFire = true ∧ 0 < d.SizeSquared ∧ e.GetWorld = none ∧
      p.FireShot e d = ⟨{ p with bCanFire := false }, [], some Fault.NullWorldDereference⟩) ∨
    (p.bCanFire = true ∧ 0 < d.SizeSquared ∧ e.GetWorld ≠ none ∧
      (∃ spawns, p.FireShot e d = ⟨p, spawns, some Fault.NullClassDereference⟩ ∧
        ∀ x ∈ spawns, Request.isSpawnActor x = true)) ∨
    (p.bCanFire = true ∧ 0 < d.SizeSquared ∧ e.GetWorld ≠ none ∧
      (p.FireShot e d).fault = none ∧
      (∃ spawns, p.FireShot e d =
        ⟨{ p with bCanFire := false,
                  TimerHandle_ShotTimerExpired :=
                    some (TimerCallback.ShotTimerExpired, p.FireRate) },
         spawns ++ [Request.SetTimer TimerCallback.ShotTimerExpired p.FireRate false] ++
          (match p.FireSound with
            | some s => [Request.PlaySoundAtLocation s e.GetActorLocation]
            | none => []),
         none⟩ ∧
        ∀ x ∈ spawns, Request.isSpawnActor x = true)) := by
  by_cases hc : p.bCanFire = true
  · by_cases hd : 0 < d.SizeSquared
    · cases hw : e.GetWorld with
      | none => right; left; exact ⟨hc, hd, rfl, FireShot_of_null_world e p d hc hd hw⟩
      | some w =>
        have hmem := FireShotSpawn_mem p
          (e.GetActorLocation + e.RotateVector (e.Rotation d) p.GunOffset) (e.Rotation d)
        have hsp : ∀ x ∈ (p.FireShotSpawn
            (e.GetActorLocation + e.RotateVector (e.Rotation d) p.GunOffset)
            (e.Rotation d)).1, Request.isSpawnActor x = true := by
          intro x hx
          obtain ⟨c, rfl⟩ := hmem x hx
          rfl
        rcases FireShotSpawn_fault p
          (e.GetActorLocation + e.RotateVector (e.Rotation d) p.GunOffset) (e.Rotation d)
          with hf | hf
        · right; right; right
          have hs := FireShot_success e p d w hc hd hw _ (Prod.ext rfl hf)
          exact ⟨hc, hd, by simp, by rw [hs], _, hs, hsp⟩
        · right; right; left
          have hs := FireShot_of_spawn_fault e p d w hc hd hw _ _ (Prod.ext rfl hf)
          exact ⟨hc, hd, by simp, _, hs, hsp⟩
    · left; exact ⟨Or.inr hd, FireShot_of_no_direction e p d hd⟩
  · left
    have hc2 : p.bCanFire = false := by simpa using hc
    exact ⟨Or.inl hc2, FireShot_of_not_bCanFire e p d hc2⟩

/-! ## Fire mode -/

theorem HandleSwitchProjectile_fireMode {α : Type} (p : ABalancingBpCppPawn α) :
    p.HandleSwitchProjectile.fireMode = if p.fireMode + 1 > 3 then 1 else p.fireMode + 1 := by
  unfold ABalancingBpCppPawn.HandleSwitchProjectile
  dsimp only
  split <;> rfl

theorem FireShot_fireMode {α : Type} [LinearOrderedField α] (e : Engine α)
    (p : ABalancingBpCppPawn α) (d : FVector α) :
    (p.FireShot e d).pawn.fireMode = p.fireMode := by
  rcases FireShot_cases e p d with
    ⟨_, h⟩ | ⟨_, _, _, h⟩ | ⟨_, _, _, _, h, _⟩ | ⟨_, _, _, _, _, h, _⟩
  · rw [h]
  · rw [h]
  · rw [h]
  · rw [h]

theorem Tick_fireMode {α : Type} [LinearOrderedField α] (e : Engine α)
    (p : ABalancingBpCppPawn α) (dt : α) :
    (p.Tick e dt).pawn.fireMode = p.fireMode := by
  unfold ABalancingBpCppPawn.Tick
  exact FireShot_fireMode e p _

/-- One call keeps the fire mode within 1, 2, 3. -/
theorem call_fireMode_mem {α : Type} [LinearOrderedField α] (p : ABalancingBpCppPawn α)
    (c : Call α) (h : p.fireMode = 1 ∨ p.fireMode = 2 ∨ p.fireMode = 3) :
    (call p c).pawn.fireMode = 1 ∨ (call p c).pawn.fireMode = 2
      ∨ (call p c).pawn.fireMode = 3 := by
  cases c with
  | HandleSwitchProjectile =>
    simp only [call]
    rw [HandleSwitchProjectile_fireMode]
    split <;> omega
  | Tick e dt =>
    simp only [call]
    rw [Tick_fireMode]; exact h
  | FireShot e d =>
    simp only [call]
    rw [FireShot_fireMode]; exact h
  | ShotTimerExpired => exact h

/-- The pawn after a non-empty sequence of calls. -/
theorem run_cons_pawn {α : Type} [LinearOrderedField α] (p : ABalancingBpCppPawn α)
    (c : Call α) (cs : List (Call α)) :
    (run p (c :: cs)).pawn = (call p c).pawn ∨
      (run p (c :: cs)).pawn = (run (call p c).pawn cs).pawn := by
  simp only [run]
  cases (call p c).fault
  · right; rfl
  · left; rfl

/-- A sequence of calls keeps the fire mode within 1, 2, 3. -/
theorem run_fireMode_mem {α : Type} [LinearOrderedField α] (cs : List (Call α)) :
    ∀ p : ABalancingBpCppPawn α, (p.fireMode = 1 ∨ p.fireMode = 2 ∨ p.fireMode = 3) →
      ((run p cs).pawn.fireMode = 1 ∨ (run p cs).pawn.fireMode = 2
        ∨ (run p cs).pawn.fireMode = 3) := by
  induction cs with
  | nil => intro p h; exact h
  | cons c cs ih =>
    intro p h
    have hc := call_fireMode_mem p c h
    rcases run_cons_pawn p c cs with h1 | h1
    · rw [h1]; exact hc
    · rw [h1]; exact ih _ hc

/-- C1: calling `HandleSwitchProjectile` n times from `fireMode = 1` leaves
`fireMode = ((1 - 1 + n) mod 3) + 1`, the cycle 1, 2, 3, 1, ... of period 3. -/
theorem HandleSwitchProjectile_iterate_fireMode {α : Type} (p : ABalancingBpCppPawn α)
    (n : Nat) (h : p.fireMode = 1) :
    (ABalancingBpCppPawn.HandleSwitchProjectile^[n] p).fireMode
      = (((1 - 1 + n) % 3 : Nat) : Int) + 1 := by
  induction n with
  | zero => simpa using h
  | succ k ih =>
    rw [Function.iterate_succ_apply', HandleSwitchProjectile_fireMode, ih]
    have h3 : k % 3 < 3 := Nat.mod_lt _ (by decide)
    simp only [Nat.sub_self, Nat.zero_add]
    split <;> omega

/-- Witness of C1: five switches from the constructed pawn with `fireMode = 1`. -/
theorem HandleSwitchProjectile_iterate_fireMode_witness :
    (ABalancingBpCppPawn.ctor 1 none (some ⟨1⟩) (some ⟨2⟩) (some ⟨3⟩)
        : ABalancingBpCppPawn ℚ).fireMode = 1 ∧
    (ABalancingBpCppPawn.HandleSwitchProjectile^[5]
        (ABalancingBpCppPawn.ctor 1 none (some ⟨1⟩) (some ⟨2⟩) (some ⟨3⟩)
            : ABalancingBpCppPawn ℚ)).fireMode
      = (((1 - 1 + 5) % 3 : Nat) : Int) + 1 :=
  ⟨rfl, HandleSwitchProjectile_iterate_fireMode _ 5 rfl⟩

/-- C2: with the declared initial `fireMode` in 1, 2, 3, the constructed pawn has
`fireMode` in 1, 2, 3, and so has the pawn after every sequence of
`HandleSwitchProjectile`, `Tick`, `FireShot` and `ShotTimerExpired` calls, whatever the
engine answers and whatever the sound and projectile class members point to. -/
theorem fireMode_invariant {α : Type} [LinearOrderedField α] (fireModeDecl : Int)
    (FireSoundDecl : Option USoundBase)
    (ProjectileSlowDecl ProjectileRegularDecl ProjectileFastDecl : Option UClass)
    (h : fireModeDecl = 1 ∨ fireModeDecl = 2 ∨ fireModeDecl = 3) (cs : List (Call α)) :
    (run (ABalancingBpCppPawn.ctor fireModeDecl FireSoundDecl ProjectileSlowDecl
        ProjectileRegularDecl ProjectileFastDecl : ABalancingBpCppPawn α)
        cs).pawn.fireMode = 1 ∨
    (run (ABalancingBpCppPawn.ctor fireModeDecl FireSoundDecl ProjectileSlowDecl
        ProjectileRegularDecl ProjectileFastDecl : ABalancingBpCppPawn α)
        cs).pawn.fireMode = 2 ∨
    (run (ABalancingBpCppPawn.ctor fireModeDecl FireSoundDecl ProjectileSlowDecl
        ProjectileRegularDecl ProjectileFastDecl : ABalancingBpCppPawn α)
        cs).pawn.fireMode = 3 :=
  run_fireMode_mem cs _ h

/-! ## The fire gate -/

/-- C3: with `bCanFire = false`, `FireShot` issues no request, raises no fault and
leaves the pawn (in particular `bCanFire`, `fireMode` and the timer handle) as it was,
for every fire direction. -/
theorem FireShot_noop_of_not_bCanFire {α : Type} [LinearOrderedField α] (e : Engine α)
    (p : ABalancingBpCppPawn α) (FireDirection : FVector α) (h : p.bCanFire = false) :
    p.FireShot e FireDirection = ⟨p, [], none⟩ := by
  simp [ABalancingBpCppPawn.FireShot, h]

/-- C4: with a fire direction of zero magnitude, `FireShot` issues no request, raises no
fault and leaves the pawn as it was, whether `bCanFire` is true or false. -/
theorem FireShot_noop_of_zero_direction {α : Type} [LinearOrderedField α] (e : Engine α)
    (p : ABalancingBpCppPawn α) (FireDirection : FVector α)
    (h : FireDirection.SizeSquared = 0) :
    p.FireShot e FireDirection = ⟨p, [], none⟩ := by
  simp [ABalancingBpCppPawn.FireShot, h]

/-- Witness of C2: the pawn constructed with the declared `fireMode`, after a switch, a tick that
moves and fires, a direct fire attempt, the timer callback and three more switches. -/
theorem fireMode_invariant_witness :
    (run (ABalancingBpCppPawn.ctor ABalancingBpCppPawn.fireModeDeclared none (some ⟨1⟩) (some ⟨2⟩) (some ⟨3⟩)
        : ABalancingBpCppPawn ℚ)
        [Call.HandleSwitchProjectile,
         Call.Tick (sampleEngine 1 0 1 0 noHit ⟨0, 0, 0⟩ (some ⟨0⟩)) (1 / 100),
         Call.FireShot (sampleEngine 0 0 1 0 noHit ⟨0, 0, 0⟩ (some ⟨0⟩)) ⟨1, 0, 0⟩,
         Call.ShotTimerExpired, Call.HandleSwitchProjectile, Call.HandleSwitchProjectile,
         Call.HandleSwitchProjectile]).pawn.fireMode = 1 ∨
    (run (ABalancingBpCppPawn.ctor ABalancingBpCppPawn.fireModeDeclared none (some ⟨1⟩) (some ⟨2⟩) (some ⟨3⟩)
        : ABalancingBpCppPawn ℚ)
        [Call.HandleSwitchProjectile,
         Call.Tick (sampleEngine 1 0 1 0 noHit ⟨0, 0, 0⟩ (some ⟨0⟩)) (1 / 100),
         Call.FireShot (sampleEngine 0 0 1 0 noHit ⟨0, 0, 0⟩ (some ⟨0⟩)) ⟨1, 0, 0⟩,
         Call.ShotTimerExpired, Call.HandleSwitchProjectile, Call.HandleSwitchProjectile,
         Call.HandleSwitchProjectile]).pawn.fireMode = 2 ∨
    (run (ABalancingBpCppPawn.ctor ABalancingBpCppPawn.fireModeDeclared none (some ⟨1⟩) (some ⟨2⟩) (some ⟨3⟩)
        : ABalancingBpCppPawn ℚ)
        [Call.HandleSwitchProjectile,
         Call.Tick (sampleEngine 1 0 1 0 noHit ⟨0, 0, 0⟩ (some ⟨0⟩)) (1 / 100),
         Call.FireShot (sampleEngine 0 0 1 0 noHit ⟨0, 0, 0⟩ (some ⟨0⟩)) ⟨1, 0, 0⟩,
         Call.ShotTimerExpired, Call.HandleSwitchProjectile, Call.HandleSwitchProjectile,
         Call.HandleSwitchProjectile]).pawn.fireMode = 3 :=
  fireMode_invariant ABalancingBpCppPawn.fireModeDeclared none (some ⟨1⟩) (some ⟨2⟩) (some ⟨3⟩)
    (Or.inl rfl) _

/-- Witness of C3: a pawn in cooldown asked to fire along +X. -/
theorem FireShot_noop_of_not_bCanFire_witness :
    ({ (ABalancingBpCppPawn.ctor 2 (some ⟨7⟩) (some ⟨1⟩) (some ⟨2⟩) (some ⟨3⟩)
        : ABalancingBpCppPawn ℚ) with
        bCanFire := false }).FireShot
      (sampleEngine 0 0 1 0 noHit ⟨5, 5, 0⟩ (some ⟨0⟩)) ⟨1, 0, 0⟩
    = ⟨{ (ABalancingBpCppPawn.ctor 2 (some ⟨7⟩) (some ⟨1⟩) (some ⟨2⟩) (some ⟨3⟩)
        : ABalancingBpCppPawn ℚ) with
        bCanFire := false }, [], none⟩ :=
  FireShot_noop_of_not_bCanFire _ _ _ rfl

/-- Witness of C4: the constructed pawn, ready to fire, with no fire input. -/
theorem FireShot_noop_of_zero_direction_witness :
    (ABalancingBpCppPawn.ctor 1 (some ⟨7⟩) (some ⟨1⟩) (some ⟨2⟩) (some ⟨3⟩)
        : ABalancingBpCppPawn ℚ).bCanFire = true ∧
    (ABalancingBpCppPawn.ctor 1 (some ⟨7⟩) (some ⟨1⟩) (some ⟨2⟩) (some ⟨3⟩)
        : ABalancingBpCppPawn ℚ).FireShot
      (sampleEngine 0 0 0 0 noHit ⟨5, 5, 0⟩ (some ⟨0⟩)) ⟨0, 0, 0⟩
    = ⟨ABalancingBpCppPawn.ctor 1 (some ⟨7⟩) (some ⟨1⟩) (some ⟨2⟩) (some ⟨3⟩), [], none⟩ :=
  ⟨rfl, FireShot_noop_of_zero_direction _ _ _ (by simp [FVector.SizeSquared])⟩

/-- With the gate open, a fire direction of non-zero magnitude, a world, and the class
member that `fireMode` selects (if it selects one) not null, the spawn block completes
with no request or with one spawn. -/
theorem FireShotSpawn_of_classes_set {α : Type} (p : ABalancingBpCppPawn α)
    (l : FVector α) (r : FRotator α)
    (h1 : p.fireMode = 1 → p.ProjectileSlow ≠ none)
    (h2 : p.fireMode = 2 → p.ProjectileRegular ≠ none)
    (h3 : p.fireMode = 3 → p.ProjectileFast ≠ none) :
    ∃ spawns, p.FireShotSpawn l r = (spawns, none) ∧
      (spawns = [] ∨ ∃ c, spawns = [Request.SpawnActor c l r]) := by
  by_cases m1 : p.fireMode = 1
  · cases hs : p.ProjectileSlow with
    | none => exact absurd hs (h1 m1)
    | some c =>
      refine ⟨[Request.SpawnActor c l r], ?_, Or.inr ⟨c, rfl⟩⟩
      rw [FireShotSpawn_of_mode1 p l r m1, hs]
  · by_cases m2 : p.fireMode = 2
    · cases hs : p.ProjectileRegular with
      | none => exact absurd hs (h2 m2)
      | some c =>
        refine ⟨[Request.SpawnActor c l r], ?_, Or.inr ⟨c, rfl⟩⟩
        rw [FireShotSpawn_of_mode2 p l r m2, hs]
    · by_cases m3 : p.fireMode = 3
      · cases hs : p.ProjectileFast with
        | none => exact absurd hs (h3 m3)
        | some c =>
          refine ⟨[Request.SpawnActor c l r], ?_, Or.inr ⟨c, rfl⟩⟩
          rw [FireShotSpawn_of_mode3 p l r m3, hs]
      · exact ⟨[], FireShotSpawn_outside p l r m1 m2 m3, Or.inl rfl⟩

/-- C5, amended: a call to `FireShot` with the gate open, a fire direction of non-zero
magnitude, a world available and the projectile class member that `fireMode` selects not
null issues exactly one spawn request: of the class `ProjectileSlow` points to when
`fireMode = 1`, of the class `ProjectileRegular` points to when `fireMode = 2`, of the
class `ProjectileFast` points to when `fireMode = 3`, at the actor location plus the
rotated gun offset, with the rotation of the fire direction. -/
theorem FireShot_spawn_by_fireMode {α : Type} [LinearOrderedField α] (e : Engine α)
    (p : ABalancingBpCppPawn α) (d : FVector α) (w : UWorld)
    (hc : p.bCanFire = true) (hd : 0 < d.SizeSquared) (hw : e.GetWorld = some w) :
    (∀ c, p.fireMode = 1 → p.ProjectileSlow = some c →
      (p.FireShot e d).requests.filter Request.isSpawnActor =
        [Request.SpawnActor c
          (e.GetActorLocation + e.RotateVector (e.Rotation d) p.GunOffset) (e.Rotation d)]) ∧
    (∀ c, p.fireMode = 2 → p.ProjectileRegular = some c →
      (p.FireShot e d).requests.filter Request.isSpawnActor =
        [Request.SpawnActor c
          (e.GetActorLocation + e.RotateVector (e.Rotation d) p.GunOffset) (e.Rotation d)]) ∧
    (∀ c, p.fireMode = 3 → p.ProjectileFast = some c →
      (p.FireShot e d).requests.filter Request.isSpawnActor =
        [Request.SpawnActor c
          (e.GetActorLocation + e.RotateVector (e.Rotation d) p.GunOffset) (e.Rotation d)]) := by
  refine ⟨fun c h hs => ?_, fun c h hs => ?_, fun c h hs => ?_⟩
  · rw [FireShot_success e p d w hc hd hw _ (by rw [FireShotSpawn_of_mode1 p _ _ h, hs])]
    cases p.FireSound <;> simp [List.filter, Request.isSpawnActor]
  · rw [FireShot_success e p d w hc hd hw _ (by rw [FireShotSpawn_of_mode2 p _ _ h, hs])]
    cases p.FireSound <;> simp [List.filter, Request.isSpawnActor]
  · rw [FireShot_success e p d w hc hd hw _ (by rw [FireShotSpawn_of_mode3 p _ _ h, hs])]
    cases p.FireSound <;> simp [List.filter, Request.isSpawnActor]

/-- C6, amended: a call to `FireShot` with the gate open, a fire direction of non-zero
magnitude, a world available and, when `fireMode` is 1, 2 or 3, the projectile class
member it selects not null leaves `bCanFire = false`, issues exactly one timer request,
one-shot, with delay `FireRate` and callback `ShotTimerExpired`, binds the timer handle
to it, issues one sound request when `FireSound` is set and none otherwise, and raises
no fault. -/
theorem FireShot_gate_timer_sound {α : Type} [LinearOrderedField α] (e : Engine α)
    (p : ABalancingBpCppPawn α) (d : FVector α) (w : UWorld)
    (hc : p.bCanFire = true) (hd : 0 < d.SizeSquared) (hw : e.GetWorld = some w)
    (h1 : p.fireMode = 1 → p.ProjectileSlow ≠ none)
    (h2 : p.fireMode = 2 → p.ProjectileRegular ≠ none)
    (h3 : p.fireMode = 3 → p.ProjectileFast ≠ none) :
    (p.FireShot e d).pawn.bCanFire = false ∧
    (p.FireShot e d).requests.filter Request.isSetTimer =
      [Request.SetTimer TimerCallback.ShotTimerExpired p.FireRate false] ∧
    (p.FireShot e d).pawn.TimerHandle_ShotTimerExpired =
      some (TimerCallback.ShotTimerExpired, p.FireRate) ∧
    ((p.FireShot e d).requests.filter Request.isPlaySoundAtLocation).length =
      (if p.FireSound.isSome = true then 1 else 0) ∧
    (p.FireShot e d).fault = none := by
  obtain ⟨spawns, hsp, hshape⟩ := FireShotSpawn_of_classes_set p
    (e.GetActorLocation + e.RotateVector (e.Rotation d) p.GunOffset) (e.Rotation d) h1 h2 h3
  rw [FireShot_success e p d w hc hd hw spawns hsp]
  refine ⟨rfl, ?_, rfl, ?_, rfl⟩ <;>
    rcases hshape with rfl | ⟨c, rfl⟩ <;>
    cases hs : p.FireSound <;>
    simp [List.filter, Request.isSetTimer, Request.isPlaySoundAtLocation]

/-- Witness of C5: the constructed pawn with `fireMode = 1` and `ProjectileSlow` set, at
(5, 5, 0), firing along +X issues one spawn of that class at (95, 5, 0). -/
theorem FireShot_spawn_by_fireMode_witness :
    0 < FVector.SizeSquared (⟨1, 0, 0⟩ : FVector ℚ) ∧
    ((ABalancingBpCppPawn.ctor 1 (some ⟨7⟩) (some ⟨1⟩) (some ⟨2⟩) (some ⟨3⟩)
        : ABalancingBpCppPawn ℚ).FireShot
        (sampleEngine 0 0 1 0 noHit ⟨5, 5, 0⟩ (some ⟨0⟩)) ⟨1, 0, 0⟩).requests.filter
        Request.isSpawnActor =
      [Request.SpawnActor ⟨1⟩ ⟨95, 5, 0⟩ ⟨0, 0, 0⟩] := by
  have hd : 0 < FVector.SizeSquared (⟨1, 0, 0⟩ : FVector ℚ) := by
    norm_num [FVector.SizeSquared]
  refine ⟨hd, ?_⟩
  have h := (FireShot_spawn_by_fireMode (sampleEngine 0 0 1 0 noHit ⟨5, 5, 0⟩ (some ⟨0⟩))
    (ABalancingBpCppPawn.ctor 1 (some ⟨7⟩) (some ⟨1⟩) (some ⟨2⟩) (some ⟨3⟩)
      : ABalancingBpCppPawn ℚ) ⟨1, 0, 0⟩ ⟨0⟩
    rfl hd rfl).1 ⟨1⟩ rfl rfl
  rw [h]
  have hloc : (sampleEngine (0 : ℚ) 0 1 0 noHit ⟨5, 5, 0⟩ (some ⟨0⟩)).GetActorLocation +
      (sampleEngine (0 : ℚ) 0 1 0 noHit ⟨5, 5, 0⟩ (some ⟨0⟩)).RotateVector
        ((sampleEngine (0 : ℚ) 0 1 0 noHit ⟨5, 5, 0⟩ (some ⟨0⟩)).Rotation ⟨1, 0, 0⟩)
        (ABalancingBpCppPawn.ctor 1 (some ⟨7⟩) (some ⟨1⟩) (some ⟨2⟩) (some ⟨3⟩)
          : ABalancingBpCppPawn ℚ).GunOffset
      = ⟨95, 5, 0⟩ := by
    show FVector.add _ _ = _
    norm_num [FVector.add, sampleEngine, ABalancingBpCppPawn.ctor]
  rw [hloc]
  rfl

/-- C5 as stated fails: the constructed pawn with `fireMode` = 1 and `ProjectileSlow`
null has the gate open; firing along +X with a world available, `FireShot` stops at
`ProjectileSlow->GetDefaultObject()` and issues no spawn request. -/
theorem FireShot_spawn_by_fireMode_counterexample :
    (ABalancingBpCppPawn.ctor 1 none none (some ⟨2⟩) (some ⟨3⟩)
      : ABalancingBpCppPawn ℚ).bCanFire = true ∧
    0 < FVector.SizeSquared (⟨1, 0, 0⟩ : FVector ℚ) ∧
    (sampleEngine (0 : ℚ) 0 1 0 noHit ⟨5, 5, 0⟩ (some ⟨0⟩)).GetWorld = some ⟨0⟩ ∧
    (ABalancingBpCppPawn.ctor 1 none none (some ⟨2⟩) (some ⟨3⟩)
      : ABalancingBpCppPawn ℚ).fireMode = 1 ∧
    ((ABalancingBpCppPawn.ctor 1 none none (some ⟨2⟩) (some ⟨3⟩)
        : ABalancingBpCppPawn ℚ).FireShot
        (sampleEngine 0 0 1 0 noHit ⟨5, 5, 0⟩ (some ⟨0⟩)) ⟨1, 0, 0⟩).requests.filter
        Request.isSpawnActor = [] ∧
    ((ABalancingBpCppPawn.ctor 1 none none (some ⟨2⟩) (some ⟨3⟩)
        : ABalancingBpCppPawn ℚ).FireShot
        (sampleEngine 0 0 1 0 noHit ⟨5, 5, 0⟩ (some ⟨0⟩)) ⟨1, 0, 0⟩).fault
      = some Fault.NullClassDereference := by
  have hd : 0 < FVector.SizeSquared (⟨1, 0, 0⟩ : FVector ℚ) := by
    norm_num [FVector.SizeSquared]
  have h := FireShot_of_spawn_fault (sampleEngine 0 0 1 0 noHit ⟨5, 5, 0⟩ (some ⟨0⟩))
    (ABalancingBpCppPawn.ctor 1 none none (some ⟨2⟩) (some ⟨3⟩) : ABalancingBpCppPawn ℚ)
    ⟨1, 0, 0⟩ ⟨0⟩ rfl hd rfl [] Fault.NullClassDereference
    (FireShotSpawn_of_mode1 _ _ _ rfl)
  rw [h]
  exact ⟨rfl, hd, rfl, rfl, rfl, rfl⟩

/-- Witness of C6: the constructed pawn (`FireRate` = 1/10) with a fire sound and the
projectile classes set, firing along +X. -/
theorem FireShot_gate_timer_sound_witness :
    ((ABalancingBpCppPawn.ctor 1 (some ⟨7⟩) (some ⟨1⟩) (some ⟨2⟩) (some ⟨3⟩)
        : ABalancingBpCppPawn ℚ).FireShot
        (sampleEngine 0 0 1 0 noHit ⟨5, 5, 0⟩ (some ⟨0⟩)) ⟨1, 0, 0⟩).pawn.bCanFire = false ∧
    ((ABalancingBpCppPawn.ctor 1 (some ⟨7⟩) (some ⟨1⟩) (some ⟨2⟩) (some ⟨3⟩)
        : ABalancingBpCppPawn ℚ).FireShot
        (sampleEngine 0 0 1 0 noHit ⟨5, 5, 0⟩ (some ⟨0⟩)) ⟨1, 0, 0⟩).requests.filter
        Request.isSetTimer =
      [Request.SetTimer TimerCallback.ShotTimerExpired (1 / 10) false] ∧
    (((ABalancingBpCppPawn.ctor 1 (some ⟨7⟩) (some ⟨1⟩) (some ⟨2⟩) (some ⟨3⟩)
        : ABalancingBpCppPawn ℚ).FireShot
        (sampleEngine 0 0 1 0 noHit ⟨5, 5, 0⟩ (some ⟨0⟩)) ⟨1, 0, 0⟩).requests.filter
        Request.isPlaySoundAtLocation).length = 1 := by
  have h := FireShot_gate_timer_sound (sampleEngine 0 0 1 0 noHit ⟨5, 5, 0⟩ (some ⟨0⟩))
    (ABalancingBpCppPawn.ctor 1 (some ⟨7⟩) (some ⟨1⟩) (some ⟨2⟩) (some ⟨3⟩)
      : ABalancingBpCppPawn ℚ) ⟨1, 0, 0⟩ ⟨0⟩
    rfl (by norm_num [FVector.SizeSquared]) rfl
    (fun _ => by simp [ABalancingBpCppPawn.ctor])
    (fun _ => by simp [ABalancingBpCppPawn.ctor])
    (fun _ => by simp [ABalancingBpCppPawn.ctor])
  exact ⟨h.1, h.2.1, h.2.2.2.1⟩

/-- C6 as stated fails: the constructed pawn with `fireMode` = 2 and `ProjectileRegular`
null has the gate open; firing along +X with a world available, `FireShot` stops at
`ProjectileRegular->GetDefaultObject()`, before `bCanFire = false` and before the timer
call: the gate stays open and no timer is requested. -/
theorem FireShot_gate_timer_sound_counterexample :
    (ABalancingBpCppPawn.ctor 2 (some ⟨7⟩) (some ⟨1⟩) none (some ⟨3⟩)
      : ABalancingBpCppPawn ℚ).bCanFire = true ∧
    0 < FVector.SizeSquared (⟨1, 0, 0⟩ : FVector ℚ) ∧
    (sampleEngine (0 : ℚ) 0 1 0 noHit ⟨5, 5, 0⟩ (some ⟨0⟩)).GetWorld = some ⟨0⟩ ∧
    ((ABalancingBpCppPawn.ctor 2 (some ⟨7⟩) (some ⟨1⟩) none (some ⟨3⟩)
        : ABalancingBpCppPawn ℚ).FireShot
        (sampleEngine 0 0 1 0 noHit ⟨5, 5, 0⟩ (some ⟨0⟩)) ⟨1, 0, 0⟩).pawn.bCanFire = true ∧
    ((ABalancingBpCppPawn.ctor 2 (some ⟨7⟩) (some ⟨1⟩) none (some ⟨3⟩)
        : ABalancingBpCppPawn ℚ).FireShot
        (sampleEngine 0 0 1 0 noHit ⟨5, 5, 0⟩ (some ⟨0⟩)) ⟨1, 0, 0⟩).requests.filter
        Request.isSetTimer = [] ∧
    ((ABalancingBpCppPawn.ctor 2 (some ⟨7⟩) (some ⟨1⟩) none (some ⟨3⟩)
        : ABalancingBpCppPawn ℚ).FireShot
        (sampleEngine 0 0 1 0 noHit ⟨5, 5, 0⟩ (some ⟨0⟩)) ⟨1, 0, 0⟩).fault
      = some Fault.NullClassDereference := by
  have hd : 0 < FVector.SizeSquared (⟨1, 0, 0⟩ : FVector ℚ) := by
    norm_num [FVector.SizeSquared]
  have h := FireShot_of_spawn_fault (sampleEngine 0 0 1 0 noHit ⟨5, 5, 0⟩ (some ⟨0⟩))
    (ABalancingBpCppPawn.ctor 2 (some ⟨7⟩) (some ⟨1⟩) none (some ⟨3⟩)
      : ABalancingBpCppPawn ℚ)
    ⟨1, 0, 0⟩ ⟨0⟩ rfl hd rfl [] Fault.NullClassDereference
    (FireShotSpawn_of_mode2 _ _ _ rfl)
  rw [h]
  exact ⟨rfl, hd, rfl, rfl, rfl, rfl⟩

/-- The body moves of a tick contain no spawn request. -/
theorem TickMoves_filter_isSpawnActor {α : Type} [LinearOrderedField α] (e : Engine α)
    (p : ABalancingBpCppPawn α) (dt : α) :
    (p.TickMoves e dt).filter Request.isSpawnActor = [] := by
  unfold ABalancingBpCppPawn.TickMoves
  dsimp only
  split
  · split <;> rfl
  · rfl

/-- With the gate closed, a call other than the timer callback keeps it closed, spawns
nothing and raises no fault. -/
theorem call_of_not_bCanFire {α : Type} [LinearOrderedField α] (p : ABalancingBpCppPawn α)
    (c : Call α) (h : p.bCanFire = false) (hc : c.isShotTimerExpired = false) :
    (call p c).pawn.bCanFire = false ∧
    (call p c).requests.filter Request.isSpawnActor = [] ∧
    (call p c).fault = none := by
  cases c with
  | HandleSwitchProjectile =>
    refine ⟨?_, rfl, rfl⟩
    simp only [call, ABalancingBpCppPawn.HandleSwitchProjectile]
    split <;> exact h
  | Tick e dt =>
    have hf := FireShot_of_not_bCanFire e p
      ⟨e.GetInputAxisValue FireForwardBinding, e.GetInputAxisValue FireRightBinding, 0⟩ h
    refine ⟨?_, ?_, ?_⟩
    · show (p.FireShot e _).pawn.bCanFire = false
      rw [hf]; exact h
    · show (p.TickMoves e dt ++ (p.FireShot e _).requests).filter _ = []
      rw [hf, List.append_nil]; exact TickMoves_filter_isSpawnActor e p dt
    · show (p.FireShot e _).fault = none
      rw [hf]
  | FireShot e d =>
    have hf := FireShot_of_not_bCanFire e p d h
    refine ⟨?_, ?_, ?_⟩
    · show (p.FireShot e d).pawn.bCanFire = false
      rw [hf]; exact h
    · show (p.FireShot e d).requests.filter _ = []
      rw [hf]; rfl
    · show (p.FireShot e d).fault = none
      rw [hf]
  | ShotTimerExpired => simp [Call.isShotTimerExpired] at hc

/-- With the gate closed, a sequence of calls without the timer callback keeps it closed,
spawns nothing and raises no fault. -/
theorem run_of_not_bCanFire {α : Type} [LinearOrderedField α] (cs : List (Call α)) :
    ∀ p : ABalancingBpCppPawn α, p.bCanFire = false →
      (∀ c ∈ cs, c.isShotTimerExpired = false) →
      (run p cs).pawn.bCanFire = false ∧
      (run p cs).requests.filter Request.isSpawnActor = [] ∧
      (run p cs).fault = none := by
  induction cs with
  | nil => intro p h _; exact ⟨h, rfl, rfl⟩
  | cons c cs ih =>
    intro p h hcs
    obtain ⟨h1, h2, h3⟩ := call_of_not_bCanFire p c h (hcs c (List.mem_cons_self c cs))
    obtain ⟨i1, i2, i3⟩ := ih (call p c).pawn h1
      (fun c2 hc2 => hcs c2 (List.mem_cons_of_mem c hc2))
    simp only [run, h3, List.filter_append, h2, List.nil_append]
    exact ⟨i1, i2, i3⟩

/-- C7: from a pawn with `bCanFire = false`, every sequence of `Tick`, `FireShot` and
`HandleSwitchProjectile` calls, with any engine answers, ends with `bCanFire = false`,
without a spawn request and without a fault, while `ShotTimerExpired` sets
`bCanFire = true`. The pawn a successful shot leaves (gate open, fire direction of
non-zero magnitude, the call completed without a fault) is such a pawn: a fire attempt
on it, made before the timer callback has run, is a no-op. -/
theorem gate_reopened_only_by_ShotTimerExpired {α : Type} [LinearOrderedField α]
    (p : ABalancingBpCppPawn α) (h : p.bCanFire = false) (cs : List (Call α))
    (hcs : ∀ c ∈ cs, c.isShotTimerExpired = false) :
    (run p cs).pawn.bCanFire = false ∧
    (run p cs).requests.filter Request.isSpawnActor = [] ∧
    (run p cs).fault = none ∧
    p.ShotTimerExpired.bCanFire = true ∧
    (∀ (e0 : Engine α) (p0 : ABalancingBpCppPawn α) (d0 : FVector α),
      p0.bCanFire = true → 0 < d0.SizeSquared → (p0.FireShot e0 d0).fault = none →
      ∀ (e : Engine α) (d : FVector α),
        (p0.FireShot e0 d0).pawn.FireShot e d = ⟨(p0.FireShot e0 d0).pawn, [], none⟩) := by
  obtain ⟨h1, h2, h3⟩ := run_of_not_bCanFire cs p h hcs
  refine ⟨h1, h2, h3, rfl, ?_⟩
  intro e0 p0 d0 hc hd hf e d
  apply FireShot_of_not_bCanFire
  rcases FireShot_cases e0 p0 d0 with
    ⟨hn, _⟩ | ⟨_, _, _, hs⟩ | ⟨_, _, _, _, hs, _⟩ | ⟨_, _, _, _, _, hs, _⟩
  · rcases hn with hn | hn
    · rw [hc] at hn; cases hn
    · exact absurd hd hn
  · rw [hs] at hf; cases hf
  · rw [hs] at hf; cases hf
  · rw [hs]

/-- Witness of C7: the constructed pawn (`FireRate` = 1/10) fires along +X; on the pawn
this leaves, a fire attempt, a tick of 0.05 s with fire input and a switch, all before
the timer callback, spawn nothing and leave the gate closed. -/
theorem gate_reopened_only_by_ShotTimerExpired_witness :
    ((ABalancingBpCppPawn.ctor 1 none (some ⟨1⟩) (some ⟨2⟩) (some ⟨3⟩)
        : ABalancingBpCppPawn ℚ).FireShot
        (sampleEngine 0 0 1 0 noHit ⟨0, 0, 0⟩ (some ⟨0⟩)) ⟨1, 0, 0⟩).pawn.bCanFire = false ∧
    (run ((ABalancingBpCppPawn.ctor 1 none (some ⟨1⟩) (some ⟨2⟩) (some ⟨3⟩)
        : ABalancingBpCppPawn ℚ).FireShot
        (sampleEngine 0 0 1 0 noHit ⟨0, 0, 0⟩ (some ⟨0⟩)) ⟨1, 0, 0⟩).pawn
      [Call.FireShot (sampleEngine 0 0 1 0 noHit ⟨0, 0, 0⟩ (some ⟨0⟩)) ⟨1, 0, 0⟩,
       Call.Tick (sampleEngine 1 0 1 0 noHit ⟨0, 0, 0⟩ (some ⟨0⟩)) (1 / 20),
       Call.HandleSwitchProjectile]).pawn.bCanFire = false ∧
    (run ((ABalancingBpCppPawn.ctor 1 none (some ⟨1⟩) (some ⟨2⟩) (some ⟨3⟩)
        : ABalancingBpCppPawn ℚ).FireShot
        (sampleEngine 0 0 1 0 noHit ⟨0, 0, 0⟩ (some ⟨0⟩)) ⟨1, 0, 0⟩).pawn
      [Call.FireShot (sampleEngine 0 0 1 0 noHit ⟨0, 0, 0⟩ (some ⟨0⟩)) ⟨1, 0, 0⟩,
       Call.Tick (sampleEngine 1 0 1 0 noHit ⟨0, 0, 0⟩ (some ⟨0⟩)) (1 / 20),
       Call.HandleSwitchProjectile]).requests.filter Request.isSpawnActor = [] := by
  have hshot : ((ABalancingBpCppPawn.ctor 1 none (some ⟨1⟩) (some ⟨2⟩) (some ⟨3⟩)
      : ABalancingBpCppPawn ℚ).FireShot
      (sampleEngine 0 0 1 0 noHit ⟨0, 0, 0⟩ (some ⟨0⟩)) ⟨1, 0, 0⟩).pawn.bCanFire = false := by
    rw [FireShot_success _ _ _ ⟨0⟩ rfl (by norm_num [FVector.SizeSquared]) rfl _
      (FireShotSpawn_of_mode1 _ _ _ rfl)]
  have h := gate_reopened_only_by_ShotTimerExpired
    ((ABalancingBpCppPawn.ctor 1 none (some ⟨1⟩) (some ⟨2⟩) (some ⟨3⟩)
        : ABalancingBpCppPawn ℚ).FireShot
      (sampleEngine 0 0 1 0 noHit ⟨0, 0, 0⟩ (some ⟨0⟩)) ⟨1, 0, 0⟩).pawn hshot
    [Call.FireShot (sampleEngine 0 0 1 0 noHit ⟨0, 0, 0⟩ (some ⟨0⟩)) ⟨1, 0, 0⟩,
     Call.Tick (sampleEngine 1 0 1 0 noHit ⟨0, 0, 0⟩ (some ⟨0⟩)) (1 / 20),
     Call.HandleSwitchProjectile]
    (by
      intro c hc
      simp only [List.mem_cons, List.mem_singleton, List.not_mem_nil, or_false] at hc
      rcases hc with rfl | rfl | rfl <;> rfl)
  exact ⟨hshot, h.1, h.2.1⟩

/-- C8, the code at the failing input: the constructed pawn, with no world, firing along
+X. No spawn is requested, and the call does not complete: it stops with the gate closed
at the access to the timer manager through the null world pointer, before any timer is
requested. -/
theorem FireShot_null_world_faults :
    (ABalancingBpCppPawn.ctor 1 none (some ⟨1⟩) (some ⟨2⟩) (some ⟨3⟩)
        : ABalancingBpCppPawn ℚ).FireShot
        (sampleEngine 0 0 1 0 noHit ⟨0, 0, 0⟩ none) ⟨1, 0, 0⟩
      = ⟨{ (ABalancingBpCppPawn.ctor 1 none (some ⟨1⟩) (some ⟨2⟩) (some ⟨3⟩)
          : ABalancingBpCppPawn ℚ) with bCanFire := false },
         [], some Fault.NullWorldDereference⟩ :=
  FireShot_of_null_world _ _ _ rfl (by norm_num [FVector.SizeSquared]) rfl

/-! ## Movement -/

theorem FVector.hMul_eq {α : Type} [LinearOrderedField α] (v : FVector α) (s : α) :
    v * s = ⟨v.X * s, v.Y * s, v.Z * s⟩ := rfl

theorem FVector.sub_eq {α : Type} [LinearOrderedField α] (v w : FVector α) :
    v - w = ⟨v.X - w.X, v.Y - w.Y, v.Z - w.Z⟩ := rfl

theorem FVector.add_eq {α : Type} [LinearOrderedField α] (v w : FVector α) :
    v + w = ⟨v.X + w.X, v.Y + w.Y, v.Z + w.Z⟩ := rfl

/-- The movement of a tick with full forward and full right input, over the reals with
the exact inverse square root: both components are `MoveSpeed * DeltaSeconds / √2`. -/
theorem TickMovement_diagonal (e : Engine ℝ) (p : ABalancingBpCppPawn ℝ) (dt : ℝ)
    (hs : ∀ x, e.InvSqrt x = (Real.sqrt x)⁻¹)
    (hf : e.GetInputAxisValue MoveForwardBinding = 1)
    (hr : e.GetInputAxisValue MoveRightBinding = 1) :
    p.TickMovement e dt =
      ⟨(Real.sqrt 2)⁻¹ * p.MoveSpeed * dt, (Real.sqrt 2)⁻¹ * p.MoveSpeed * dt, 0⟩ := by
  have h1 : ¬ ((1 : ℝ) < FVector.KINDA_SMALL_NUMBER) := by
    norm_num [FVector.KINDA_SMALL_NUMBER]
  have h2 : FVector.SizeSquared (⟨1, 1, 0⟩ : FVector ℝ) > 1 * 1 := by
    norm_num [FVector.SizeSquared]
  have h3 : FVector.SizeSquared (⟨1, 1, 0⟩ : FVector ℝ) = 2 := by
    norm_num [FVector.SizeSquared]
  simp only [ABalancingBpCppPawn.TickMovement, hf, hr, FVector.GetClampedToMaxSize, h1, h2,
    if_true, if_false, hs, h3, FVector.hMul_eq]
  norm_num

/-- The movement of a tick with full forward and no right input. -/
theorem TickMovement_forward {α : Type} [LinearOrderedField α] (e : Engine α)
    (p : ABalancingBpCppPawn α) (dt : α)
    (hf : e.GetInputAxisValue MoveForwardBinding = 1)
    (hr : e.GetInputAxisValue MoveRightBinding = 0) :
    p.TickMovement e dt = ⟨p.MoveSpeed * dt, 0, 0⟩ := by
  have h1 : ¬ ((1 : α) < FVector.KINDA_SMALL_NUMBER) := by
    norm_num [FVector.KINDA_SMALL_NUMBER]
  have h2 : ¬ (FVector.SizeSquared (⟨1, 0, 0⟩ : FVector α) > 1 * 1) := by
    norm_num [FVector.SizeSquared]
  simp only [ABalancingBpCppPawn.TickMovement, hf, hr, FVector.GetClampedToMaxSize, h1, h2,
    if_false, FVector.hMul_eq]
  norm_num

/-- C9: over the reals, with the exact inverse square root, the displacement `Tick`
computes for forward axis 1 and right axis 1 has the same magnitude as the one it
computes for forward axis 1 and right axis 0, for every `MoveSpeed` and every
`DeltaSeconds` (non-negative or not): both have magnitude `|MoveSpeed * DeltaSeconds|`. -/
theorem TickMovement_diagonal_same_magnitude (e1 e2 : Engine ℝ) (p : ABalancingBpCppPawn ℝ)
    (dt : ℝ) (hs : ∀ x, e1.InvSqrt x = (Real.sqrt x)⁻¹)
    (hf1 : e1.GetInputAxisValue MoveForwardBinding = 1)
    (hr1 : e1.GetInputAxisValue MoveRightBinding = 1)
    (hf2 : e2.GetInputAxisValue MoveForwardBinding = 1)
    (hr2 : e2.GetInputAxisValue MoveRightBinding = 0) :
    Real.sqrt (p.TickMovement e1 dt).SizeSquared
      = Real.sqrt (p.TickMovement e2 dt).SizeSquared ∧
    Real.sqrt (p.TickMovement e2 dt).SizeSquared = |p.MoveSpeed * dt| := by
  have hsq : (Real.sqrt 2)⁻¹ * (Real.sqrt 2)⁻¹ = 1 / 2 := by
    rw [← mul_inv, Real.mul_self_sqrt (by norm_num)]; norm_num
  have hd : (p.TickMovement e1 dt).SizeSquared = (p.MoveSpeed * dt) ^ 2 := by
    rw [TickMovement_diagonal e1 p dt hs hf1 hr1]
    simp only [FVector.SizeSquared]
    linear_combination (2 * p.MoveSpeed ^ 2 * dt ^ 2) * hsq
  have hfw : (p.TickMovement e2 dt).SizeSquared = (p.MoveSpeed * dt) ^ 2 := by
    rw [TickMovement_forward e2 p dt hf2 hr2]
    simp only [FVector.SizeSquared]
    ring
  rw [hd, hfw, Real.sqrt_sq_eq_abs]
  exact ⟨rfl, rfl⟩

/-- Witness of C9: the constructed pawn (`MoveSpeed` = 1000) over the reals, with
`DeltaSeconds` = 0.016: the diagonal and the forward displacement both have magnitude
`|1000 * 0.016|`. -/
theorem TickMovement_diagonal_same_magnitude_witness :
    Real.sqrt ((ABalancingBpCppPawn.ctor 1 none (some ⟨1⟩) (some ⟨2⟩) (some ⟨3⟩) : ABalancingBpCppPawn ℝ).TickMovement
        { sampleEngine 1 1 0 0 noHit ⟨0, 0, 0⟩ (some ⟨0⟩) with
          InvSqrt := fun x => (Real.sqrt x)⁻¹ } (16 / 1000)).SizeSquared
      = Real.sqrt ((ABalancingBpCppPawn.ctor 1 none (some ⟨1⟩) (some ⟨2⟩) (some ⟨3⟩) : ABalancingBpCppPawn ℝ).TickMovement
        (sampleEngine 1 0 0 0 noHit ⟨0, 0, 0⟩ (some ⟨0⟩)) (16 / 1000)).SizeSquared ∧
    Real.sqrt ((ABalancingBpCppPawn.ctor 1 none (some ⟨1⟩) (some ⟨2⟩) (some ⟨3⟩) : ABalancingBpCppPawn ℝ).TickMovement
        (sampleEngine 1 0 0 0 noHit ⟨0, 0, 0⟩ (some ⟨0⟩)) (16 / 1000)).SizeSquared
      = |(1000 : ℝ) * (16 / 1000)| :=
  TickMovement_diagonal_same_magnitude _ _ _ _ (fun _ => rfl) rfl rfl rfl rfl

/-- Spawn requests are no body moves. -/
theorem filter_isMoveComponent_of_spawns {α : Type} (l : List (Request α))
    (h : ∀ x ∈ l, Request.isSpawnActor x = true) :
    l.filter Request.isMoveComponent = [] := by
  induction l with
  | nil => rfl
  | cons a t ih =>
    have ha := h a (List.mem_cons_self a t)
    have ht := ih (fun x hx => h x (List.mem_cons_of_mem a hx))
    cases a <;> simp_all [Request.isSpawnActor, Request.isMoveComponent, List.filter]

/-- A call to `FireShot` issues no body move. -/
theorem FireShot_filter_isMoveComponent {α : Type} [LinearOrderedField α] (e : Engine α)
    (p : ABalancingBpCppPawn α) (d : FVector α) :
    (p.FireShot e d).requests.filter Request.isMoveComponent = [] := by
  rcases FireShot_cases e p d with
    ⟨_, hs⟩ | ⟨_, _, _, hs⟩ | ⟨_, _, _, spawns, hs, hsp⟩ | ⟨_, _, _, _, spawns, hs, hsp⟩
  · rw [hs]; rfl
  · rw [hs]; rfl
  · rw [hs]; exact filter_isMoveComponent_of_spawns spawns hsp
  · rw [hs]
    simp only [List.filter_append, filter_isMoveComponent_of_spawns spawns hsp,
      List.nil_append]
    cases p.FireSound <;> rfl

/-- The body moves of a tick are the moves requested before `FireShot` is called. -/
theorem Tick_filter_isMoveComponent {α : Type} [LinearOrderedField α] (e : Engine α)
    (p : ABalancingBpCppPawn α) (dt : α) :
    (p.Tick e dt).requests.filter Request.isMoveComponent = p.TickMoves e dt := by
  have hm : (p.TickMoves e dt).filter Request.isMoveComponent = p.TickMoves e dt := by
    unfold ABalancingBpCppPawn.TickMoves
    dsimp only
    split
    · split <;> rfl
    · rfl
  show (p.TickMoves e dt ++ (p.FireShot e _).requests).filter _ = _
  rw [List.filter_append, FireShot_filter_isMoveComponent, List.append_nil, hm]

/-- C10: when the displacement M of a tick is non-zero and the first move reports a
valid blocking hit with normal N and time fraction t, the body moves of the tick are
exactly two: the displacement M, then (M - n (M · n)) (1 - t), where n is the normalised
2D component of N, both with the rotation of M. When n is a unit vector this second
displacement lies in the plane with normal n. -/
theorem Tick_deflection_request {α : Type} [LinearOrderedField α] (e : Engine α)
    (p : ABalancingBpCppPawn α) (dt : α) (M : FVector α) (Hit : FHitResult α)
    (n : FVector α)
    (hM : M = p.TickMovement e dt)
    (hHit : Hit = e.MoveComponent M (e.Rotation M) true)
    (hn : n = FVector.GetSafeNormal2D e.InvSqrt Hit.Normal FVector.SMALL_NUMBER)
    (hm : 0 < M.SizeSquared)
    (hh : Hit.IsValidBlockingHit = true) :
    (p.Tick e dt).requests.filter Request.isMoveComponent =
      [Request.MoveComponent M (e.Rotation M) true,
       Request.MoveComponent ((M - n * FVector.dot M n) * (1 - Hit.Time))
        (e.Rotation M) true] ∧
    (FVector.dot n n = 1 →
      FVector.dot ((M - n * FVector.dot M n) * (1 - Hit.Time)) n = 0) := by
  constructor
  · subst hM hHit hn
    rw [Tick_filter_isMoveComponent]
    unfold ABalancingBpCppPawn.TickMoves
    simp only [gt_iff_lt, hm, hh, if_true]
    rfl
  · intro h1
    simp only [FVector.dot, FVector.sub_eq, FVector.hMul_eq] at h1 ⊢
    linear_combination
      ((1 - Hit.Time) * (-(M.X * n.X + M.Y * n.Y + M.Z * n.Z))) * h1

/-- Witness of C10: the constructed pawn (`MoveSpeed` = 1000) with full forward input and
`DeltaSeconds` = 1/100 has displacement (10, 0, 0); the first move reports a blocking hit
with normal (1, 0, 0) at time 1/2. The second move is requested with the plane-projected
remainder scaled by 1/2, which is (0, 0, 0). -/
theorem Tick_deflection_request_witness :
    (ABalancingBpCppPawn.ctor 1 none (some ⟨1⟩) (some ⟨2⟩) (some ⟨3⟩)
        : ABalancingBpCppPawn ℚ).TickMovement
        (sampleEngine 1 0 0 0 ⟨true, false, 1 / 2, ⟨1, 0, 0⟩⟩ ⟨0, 0, 0⟩ (some ⟨0⟩)) (1 / 100)
      = ⟨10, 0, 0⟩ ∧
    ((ABalancingBpCppPawn.ctor 1 none (some ⟨1⟩) (some ⟨2⟩) (some ⟨3⟩) : ABalancingBpCppPawn ℚ).Tick
        (sampleEngine 1 0 0 0 ⟨true, false, 1 / 2, ⟨1, 0, 0⟩⟩ ⟨0, 0, 0⟩ (some ⟨0⟩))
        (1 / 100)).requests.filter Request.isMoveComponent =
      [Request.MoveComponent ⟨10, 0, 0⟩ ⟨0, 0, 0⟩ true,
       Request.MoveComponent ⟨0, 0, 0⟩ ⟨0, 0, 0⟩ true] := by
  have hM : (⟨10, 0, 0⟩ : FVector ℚ) =
      (ABalancingBpCppPawn.ctor 1 none (some ⟨1⟩) (some ⟨2⟩) (some ⟨3⟩)
          : ABalancingBpCppPawn ℚ).TickMovement
        (sampleEngine 1 0 0 0 ⟨true, false, 1 / 2, ⟨1, 0, 0⟩⟩ ⟨0, 0, 0⟩ (some ⟨0⟩))
        (1 / 100) := by
    rw [TickMovement_forward _ _ _ rfl rfl]
    norm_num [ABalancingBpCppPawn.ctor]
  have hn : (⟨1, 0, 0⟩ : FVector ℚ) =
      FVector.GetSafeNormal2D
        (sampleEngine (1 : ℚ) 0 0 0 ⟨true, false, 1 / 2, ⟨1, 0, 0⟩⟩ ⟨0, 0, 0⟩
          (some ⟨0⟩)).InvSqrt
        (⟨true, false, 1 / 2, ⟨1, 0, 0⟩⟩ : FHitResult ℚ).Normal FVector.SMALL_NUMBER := by
    norm_num [FVector.GetSafeNormal2D]
  have h := (Tick_deflection_request
    (sampleEngine 1 0 0 0 ⟨true, false, 1 / 2, ⟨1, 0, 0⟩⟩ ⟨0, 0, 0⟩ (some ⟨0⟩))
    (ABalancingBpCppPawn.ctor 1 none (some ⟨1⟩) (some ⟨2⟩) (some ⟨3⟩)
        : ABalancingBpCppPawn ℚ) (1 / 100)
    ⟨10, 0, 0⟩ ⟨true, false, 1 / 2, ⟨1, 0, 0⟩⟩ ⟨1, 0, 0⟩ hM rfl hn
    (by norm_num [FVector.SizeSquared]) rfl).1
  have hdefl : ((⟨10, 0, 0⟩ : FVector ℚ) -
      (⟨1, 0, 0⟩ : FVector ℚ) * FVector.dot (⟨10, 0, 0⟩ : FVector ℚ) ⟨1, 0, 0⟩) *
        (1 - (⟨true, false, 1 / 2, ⟨1, 0, 0⟩⟩ : FHitResult ℚ).Time) = ⟨0, 0, 0⟩ := by
    norm_num [FVector.dot, FVector.sub_eq, FVector.hMul_eq]
  rw [hdefl] at h
  exact ⟨hM.symm, h⟩

/-- The body moves of a tick, by cases on the displacement and on the hit of the first
move. -/
theorem TickMoves_cases {α : Type} [LinearOrderedField α] (e : Engine α)
    (p : ABalancingBpCppPawn α) (dt : α) :
    (¬ 0 < (p.TickMovement e dt).SizeSquared → p.TickMoves e dt = []) ∧
    (0 < (p.TickMovement e dt).SizeSquared →
      (e.MoveComponent (p.TickMovement e dt) (e.Rotation (p.TickMovement e dt))
        true).IsValidBlockingHit = false →
      p.TickMoves e dt =
        [Request.MoveComponent (p.TickMovement e dt) (e.Rotation (p.TickMovement e dt))
          true]) ∧
    (0 < (p.TickMovement e dt).SizeSquared →
      (e.MoveComponent (p.TickMovement e dt) (e.Rotation (p.TickMovement e dt))
        true).IsValidBlockingHit = true →
      p.TickMoves e dt =
        [Request.MoveComponent (p.TickMovement e dt) (e.Rotation (p.TickMovement e dt))
          true,
         Request.MoveComponent
          (ABalancingBpCppPawn.TickDeflection e (p.TickMovement e dt)
            (e.MoveComponent (p.TickMovement e dt) (e.Rotation (p.TickMovement e dt)) true))
          (e.Rotation (p.TickMovement e dt)) true]) := by
  refine ⟨fun h => ?_, fun h hh => ?_, fun h hh => ?_⟩
  · unfold ABalancingBpCppPawn.TickMoves
    simp only [gt_iff_lt, h, if_false]
  · unfold ABalancingBpCppPawn.TickMoves
    simp [h, hh]
  · unfold ABalancingBpCppPawn.TickMoves
    simp only [gt_iff_lt, h, hh, if_true]

/-- C11: the number of body-move requests of a tick is 0 when the displacement has zero
magnitude, 1 when the displacement is non-zero and the first move reports no valid
blocking hit, 2 when it reports one, and never more than 2, whatever the engine answers
to any move. With `MoveSpeed` = 1000, `DeltaSeconds` = 0.016, forward axis 1, right
axis 0 and no collision, the body moves are the single request of (16, 0, 0), of
magnitude 16 along the forward axis. -/
theorem Tick_move_request_count {α : Type} [LinearOrderedField α] (e : Engine α)
    (p : ABalancingBpCppPawn α) (dt : α) :
    ((p.TickMovement e dt).SizeSquared = 0 →
      ((p.Tick e dt).requests.filter Request.isMoveComponent).length = 0) ∧
    (0 < (p.TickMovement e dt).SizeSquared →
      (e.MoveComponent (p.TickMovement e dt) (e.Rotation (p.TickMovement e dt))
        true).IsValidBlockingHit = false →
      ((p.Tick e dt).requests.filter Request.isMoveComponent).length = 1) ∧
    (0 < (p.TickMovement e dt).SizeSquared →
      (e.MoveComponent (p.TickMovement e dt) (e.Rotation (p.TickMovement e dt))
        true).IsValidBlockingHit = true →
      ((p.Tick e dt).requests.filter Request.isMoveComponent).length = 2) ∧
    ((p.Tick e dt).requests.filter Request.isMoveComponent).length ≤ 2 ∧
    (p.MoveSpeed = 1000 → dt = 16 / 1000 →
      e.GetInputAxisValue MoveForwardBinding = 1 →
      e.GetInputAxisValue MoveRightBinding = 0 →
      (e.MoveComponent ⟨16, 0, 0⟩ (e.Rotation ⟨16, 0, 0⟩) true).IsValidBlockingHit = false →
      (p.Tick e dt).requests.filter Request.isMoveComponent =
          [Request.MoveComponent ⟨16, 0, 0⟩ (e.Rotation ⟨16, 0, 0⟩) true] ∧
        FVector.SizeSquared (⟨16, 0, 0⟩ : FVector α) = 16 * 16) := by
  obtain ⟨c0, c1, c2⟩ := TickMoves_cases e p dt
  rw [Tick_filter_isMoveComponent]
  refine ⟨fun h => ?_, fun h hh => ?_, fun h hh => ?_, ?_, ?_⟩
  · rw [c0 (by rw [h]; exact lt_irrefl 0)]; rfl
  · rw [c1 h hh]; rfl
  · rw [c2 h hh]; rfl
  · by_cases h : 0 < (p.TickMovement e dt).SizeSquared
    · cases hh : (e.MoveComponent (p.TickMovement e dt) (e.Rotation (p.TickMovement e dt))
          true).IsValidBlockingHit
      · rw [c1 h hh]; simp
      · rw [c2 h hh]; simp
    · rw [c0 h]; simp
  · intro hs hdt hf hr hh
    have hM : p.TickMovement e dt = ⟨16, 0, 0⟩ := by
      rw [TickMovement_forward e p dt hf hr, hs, hdt]
      norm_num
    rw [hM] at c1
    have h16 : FVector.SizeSquared (⟨16, 0, 0⟩ : FVector α) = 16 * 16 := by
      norm_num [FVector.SizeSquared]
    refine ⟨c1 (by rw [h16]; norm_num) hh, h16⟩

/-- Witness of C11: the constructed pawn (`MoveSpeed` = 1000) with full forward input,
`DeltaSeconds` = 16/1000 and no hit issues the single body move (16, 0, 0). -/
theorem Tick_move_request_count_witness :
    ((ABalancingBpCppPawn.ctor 1 none (some ⟨1⟩) (some ⟨2⟩) (some ⟨3⟩) : ABalancingBpCppPawn ℚ).Tick
        (sampleEngine 1 0 0 0 noHit ⟨0, 0, 0⟩ (some ⟨0⟩))
        (16 / 1000)).requests.filter Request.isMoveComponent =
      [Request.MoveComponent ⟨16, 0, 0⟩ ⟨0, 0, 0⟩ true] ∧
    FVector.SizeSquared (⟨16, 0, 0⟩ : FVector ℚ) = 16 * 16 :=
  (Tick_move_request_count (sampleEngine 1 0 0 0 noHit ⟨0, 0, 0⟩ (some ⟨0⟩))
    (ABalancingBpCppPawn.ctor 1 none (some ⟨1⟩) (some ⟨2⟩) (some ⟨3⟩)
        : ABalancingBpCppPawn ℚ) (16 / 1000)).2.2.2.2
    rfl rfl rfl rfl rfl

/-! ## The fire gate and the cooldown timer -/

/-- A host step keeps the gate closed exactly when the timer handle is bound. -/
theorem hostStep_gate_iff_timer {α : Type} [LinearOrderedField α]
    (p q : ABalancingBpCppPawn α) (c : Call α) (h : hostStep p c = some q)
    (hp : p.bCanFire = false ↔ p.TimerHandle_ShotTimerExpired.isSome = true) :
    q.bCanFire = false ↔ q.TimerHandle_ShotTimerExpired.isSome = true := by
  have fire : ∀ (e : Engine α) (d : FVector α), (p.FireShot e d).fault = none →
      ((p.FireShot e d).pawn.bCanFire = false ↔
        (p.FireShot e d).pawn.TimerHandle_ShotTimerExpired.isSome = true) := by
    intro e d hf
    rcases FireShot_cases e p d with
      ⟨_, hs⟩ | ⟨_, _, _, hs⟩ | ⟨_, _, _, _, hs, _⟩ | ⟨_, _, _, _, _, hs, _⟩
    · rw [hs]; exact hp
    · rw [hs] at hf; cases hf
    · rw [hs] at hf; cases hf
    · rw [hs]; simp
  cases c with
  | HandleSwitchProjectile =>
    simp only [hostStep, Option.some.injEq] at h
    subst h
    unfold ABalancingBpCppPawn.HandleSwitchProjectile
    dsimp only
    split <;> exact hp
  | Tick e dt =>
    simp only [hostStep] at h
    cases hf : (p.Tick e dt).fault with
    | some f => rw [hf] at h; cases h
    | none =>
      rw [hf] at h
      simp only [Option.some.injEq] at h
      subst h
      exact fire e _ hf
  | FireShot e d =>
    simp only [hostStep] at h
    cases hf : (p.FireShot e d).fault with
    | some f => rw [hf] at h; cases h
    | none =>
      rw [hf] at h
      simp only [Option.some.injEq] at h
      subst h
      exact fire e d hf
  | ShotTimerExpired =>
    simp only [hostStep] at h
    cases ht : p.TimerHandle_ShotTimerExpired with
    | none => rw [ht] at h; cases h
    | some t =>
      rw [ht] at h
      simp only [Option.some.injEq] at h
      subst h
      simp [ABalancingBpCppPawn.ShotTimerExpired]

/-- Host steps from a pawn whose gate is closed exactly when the timer handle is bound
end in such a pawn. -/
theorem hostRun_gate_iff_timer {α : Type} [LinearOrderedField α] (cs : List (Call α)) :
    ∀ p q : ABalancingBpCppPawn α, hostRun p cs = some q →
      (p.bCanFire = false ↔ p.TimerHandle_ShotTimerExpired.isSome = true) →
      (q.bCanFire = false ↔ q.TimerHandle_ShotTimerExpired.isSome = true) := by
  induction cs with
  | nil =>
    intro p q h hp
    simp only [hostRun, Option.some.injEq] at h
    subst h
    exact hp
  | cons c cs ih =>
    intro p q h hp
    simp only [hostRun] at h
    cases hs : hostStep p c with
    | none => rw [hs] at h; cases h
    | some r =>
      rw [hs] at h
      exact ih r q h (hostStep_gate_iff_timer p r c hs hp)

/-- A call to `FireShot` that requests a timer found the gate open. -/
theorem FireShot_SetTimer_bCanFire {α : Type} [LinearOrderedField α] (e : Engine α)
    (p : ABalancingBpCppPawn α) (d : FVector α)
    (h : ∃ r ∈ (p.FireShot e d).requests, Request.isSetTimer r = true) :
    p.bCanFire = true := by
  obtain ⟨r, hr, ht⟩ := h
  rcases FireShot_cases e p d with
    ⟨_, hs⟩ | ⟨_, _, _, hs⟩ | ⟨_, _, _, spawns, hs, hsp⟩ | ⟨hc, _⟩
  · rw [hs] at hr; cases hr
  · rw [hs] at hr; cases hr
  · rw [hs] at hr
    have := hsp r hr
    cases r <;> simp [Request.isSpawnActor, Request.isSetTimer] at this ht
  · exact hc

/-- The body moves of a tick contain no timer request. -/
theorem TickMoves_not_isSetTimer {α : Type} [LinearOrderedField α] (e : Engine α)
    (p : ABalancingBpCppPawn α) (dt : α) :
    ∀ r ∈ p.TickMoves e dt, Request.isSetTimer r = false := by
  obtain ⟨c0, c1, c2⟩ := TickMoves_cases e p dt
  intro r hr
  by_cases h : 0 < (p.TickMovement e dt).SizeSquared
  · cases hh : (e.MoveComponent (p.TickMovement e dt) (e.Rotation (p.TickMovement e dt))
        true).IsValidBlockingHit
    · rw [c1 h hh] at hr
      simp only [List.mem_singleton] at hr
      subst hr; rfl
    · rw [c2 h hh] at hr
      simp only [List.mem_cons, List.mem_singleton, List.not_mem_nil, or_false] at hr
      rcases hr with rfl | rfl <;> rfl
  · rw [c0 h] at hr; cases hr

/-- A timer request of a tick comes from its call to `FireShot`. -/
theorem Tick_SetTimer_bCanFire {α : Type} [LinearOrderedField α] (e : Engine α)
    (p : ABalancingBpCppPawn α) (dt : α)
    (h : ∃ r ∈ (p.Tick e dt).requests, Request.isSetTimer r = true) :
    p.bCanFire = true := by
  obtain ⟨r, hr, hs⟩ := h
  have hr2 : r ∈ p.TickMoves e dt ++
      (p.FireShot e ⟨e.GetInputAxisValue FireForwardBinding,
        e.GetInputAxisValue FireRightBinding, 0⟩).requests := hr
  rcases List.mem_append.mp hr2 with hm | hf
  · rw [TickMoves_not_isSetTimer e p dt r hm] at hs; cases hs
  · exact FireShot_SetTimer_bCanFire e p _ ⟨r, hf, hs⟩

/-- C12: the host makes any calls into the pawn and runs the timer callback only when a
timer is pending, which consumes the timer. In every pawn reached this way from the
constructed pawn, `bCanFire` is false exactly when the timer handle is bound to a pending
timer. So a call to `FireShot`, directly or from `Tick`, that requests a timer finds no
timer pending, and while a timer is pending `FireShot` and `Tick` leave the handle as it
is. -/
theorem gate_closed_iff_timer_pending {α : Type} [LinearOrderedField α] (fireModeDecl : Int)
    (FireSoundDecl : Option USoundBase)
    (ProjectileSlowDecl ProjectileRegularDecl ProjectileFastDecl : Option UClass)
    (cs : List (Call α)) (q : ABalancingBpCppPawn α)
    (h : hostRun (ABalancingBpCppPawn.ctor fireModeDecl FireSoundDecl ProjectileSlowDecl
      ProjectileRegularDecl ProjectileFastDecl) cs = some q) :
    (q.bCanFire = false ↔ q.TimerHandle_ShotTimerExpired.isSome = true) ∧
    (∀ (e : Engine α) (d : FVector α),
      (∃ r ∈ (q.FireShot e d).requests, Request.isSetTimer r = true) →
      q.TimerHandle_ShotTimerExpired = none) ∧
    (∀ (e : Engine α) (dt : α),
      (∃ r ∈ (q.Tick e dt).requests, Request.isSetTimer r = true) →
      q.TimerHandle_ShotTimerExpired = none) ∧
    (q.TimerHandle_ShotTimerExpired.isSome = true →
      ∀ (e : Engine α) (d : FVector α) (dt : α),
        (q.FireShot e d).pawn.TimerHandle_ShotTimerExpired
          = q.TimerHandle_ShotTimerExpired ∧
        (q.Tick e dt).pawn.TimerHandle_ShotTimerExpired
          = q.TimerHandle_ShotTimerExpired) := by
  have inv := hostRun_gate_iff_timer cs _ q h (by simp [ABalancingBpCppPawn.ctor])
  have open_none : q.bCanFire = true → q.TimerHandle_ShotTimerExpired = none := by
    intro hc
    cases ht : q.TimerHandle_ShotTimerExpired with
    | none => rfl
    | some t =>
      have := inv.mpr (by rw [ht]; rfl)
      rw [hc] at this; cases this
  refine ⟨inv, ?_, ?_, ?_⟩
  · intro e d hr
    exact open_none (FireShot_SetTimer_bCanFire e q d hr)
  · intro e dt hr
    exact open_none (Tick_SetTimer_bCanFire e q dt hr)
  · intro ht e d dt
    have hc := inv.mpr ht
    constructor
    · rw [FireShot_of_not_bCanFire e q d hc]
    · show (q.FireShot e _).pawn.TimerHandle_ShotTimerExpired = _
      rw [FireShot_of_not_bCanFire e q _ hc]

/-- Witness of C12: from the constructed pawn, a shot, then a fire attempt, a tick of
0.05 s with fire input and a switch while the timer is pending, then the timer callback,
then a second shot. The pawn reached has the gate closed and the timer of the second
shot pending. -/
theorem gate_closed_iff_timer_pending_witness :
    hostRun (ABalancingBpCppPawn.ctor 1 none (some ⟨1⟩) (some ⟨2⟩) (some ⟨3⟩)
        : ABalancingBpCppPawn ℚ)
      [Call.FireShot (sampleEngine 0 0 1 0 noHit ⟨0, 0, 0⟩ (some ⟨0⟩)) ⟨1, 0, 0⟩,
       Call.FireShot (sampleEngine 0 0 1 0 noHit ⟨0, 0, 0⟩ (some ⟨0⟩)) ⟨1, 0, 0⟩,
       Call.Tick (sampleEngine 1 0 1 0 noHit ⟨0, 0, 0⟩ (some ⟨0⟩)) (1 / 20),
       Call.HandleSwitchProjectile,
       Call.ShotTimerExpired,
       Call.FireShot (sampleEngine 0 0 1 0 noHit ⟨0, 0, 0⟩ (some ⟨0⟩)) ⟨1, 0, 0⟩]
      = some { (ABalancingBpCppPawn.ctor 2 none (some ⟨1⟩) (some ⟨2⟩) (some ⟨3⟩)
          : ABalancingBpCppPawn ℚ) with
          bCanFire := false
          TimerHandle_ShotTimerExpired := some (TimerCallback.ShotTimerExpired, 1 / 10) } ∧
    (({ (ABalancingBpCppPawn.ctor 2 none (some ⟨1⟩) (some ⟨2⟩) (some ⟨3⟩)
        : ABalancingBpCppPawn ℚ) with
          bCanFire := false
          TimerHandle_ShotTimerExpired := some (TimerCallback.ShotTimerExpired, 1 / 10) }
        : ABalancingBpCppPawn ℚ).bCanFire = false ↔
      ({ (ABalancingBpCppPawn.ctor 2 none (some ⟨1⟩) (some ⟨2⟩) (some ⟨3⟩)
          : ABalancingBpCppPawn ℚ) with
          bCanFire := false
          TimerHandle_ShotTimerExpired := some (TimerCallback.ShotTimerExpired, 1 / 10) }
        : ABalancingBpCppPawn ℚ).TimerHandle_ShotTimerExpired.isSome = true) := by
  have hrun : hostRun (ABalancingBpCppPawn.ctor 1 none (some ⟨1⟩) (some ⟨2⟩) (some ⟨3⟩)
      : ABalancingBpCppPawn ℚ)
      [Call.FireShot (sampleEngine 0 0 1 0 noHit ⟨0, 0, 0⟩ (some ⟨0⟩)) ⟨1, 0, 0⟩,
       Call.FireShot (sampleEngine 0 0 1 0 noHit ⟨0, 0, 0⟩ (some ⟨0⟩)) ⟨1, 0, 0⟩,
       Call.Tick (sampleEngine 1 0 1 0 noHit ⟨0, 0, 0⟩ (some ⟨0⟩)) (1 / 20),
       Call.HandleSwitchProjectile,
       Call.ShotTimerExpired,
       Call.FireShot (sampleEngine 0 0 1 0 noHit ⟨0, 0, 0⟩ (some ⟨0⟩)) ⟨1, 0, 0⟩]
      = some { (ABalancingBpCppPawn.ctor 2 none (some ⟨1⟩) (some ⟨2⟩) (some ⟨3⟩)
          : ABalancingBpCppPawn ℚ) with
          bCanFire := false
          TimerHandle_ShotTimerExpired := some (TimerCallback.ShotTimerExpired, 1 / 10) } := by
    simp [hostRun, hostStep, ABalancingBpCppPawn.Tick, ABalancingBpCppPawn.FireShot,
      ABalancingBpCppPawn.HandleSwitchProjectile, ABalancingBpCppPawn.ShotTimerExpired,
      ABalancingBpCppPawn.FireShotSpawn, ABalancingBpCppPawn.SpawnIfMode,
      ABalancingBpCppPawn.ctor, sampleEngine, FVector.SizeSquared, FireForwardBinding,
      FireRightBinding]
  exact ⟨hrun, (gate_closed_iff_timer_pending 1 none (some ⟨1⟩) (some ⟨2⟩) (some ⟨3⟩) _ _
    hrun).1⟩

/-- C13: with the gate open, a world available and `fireMode` outside 1, 2, 3, a call to
`FireShot` with a fire direction of non-zero magnitude issues no spawn request, yet
leaves `bCanFire = false` and requests the one-shot timer with delay `FireRate`, binding
the timer handle to it. -/
theorem FireShot_no_spawn_outside_modes {α : Type} [LinearOrderedField α] (e : Engine α)
    (p : ABalancingBpCppPawn α) (d : FVector α) (w : UWorld)
    (hc : p.bCanFire = true) (hd : 0 < d.SizeSquared) (hw : e.GetWorld = some w)
    (h1 : p.fireMode ≠ 1) (h2 : p.fireMode ≠ 2) (h3 : p.fireMode ≠ 3) :
    (p.FireShot e d).requests.filter Request.isSpawnActor = [] ∧
    (p.FireShot e d).pawn.bCanFire = false ∧
    (p.FireShot e d).requests.filter Request.isSetTimer =
      [Request.SetTimer TimerCallback.ShotTimerExpired p.FireRate false] ∧
    (p.FireShot e d).pawn.TimerHandle_ShotTimerExpired =
      some (TimerCallback.ShotTimerExpired, p.FireRate) ∧
    (p.FireShot e d).fault = none := by
  rw [FireShot_success e p d w hc hd hw [] (FireShotSpawn_outside p _ _ h1 h2 h3)]
  refine ⟨?_, rfl, ?_, rfl, rfl⟩ <;>
    cases hs : p.FireSound <;>
    simp [List.filter, Request.isSpawnActor, Request.isSetTimer]

/-- Witness of C13: a pawn with `fireMode` = 0, ready to fire, firing along +X: no spawn,
the gate closes and the timer of 1/10 s is requested. -/
theorem FireShot_no_spawn_outside_modes_witness :
    ((ABalancingBpCppPawn.ctor 0 none (some ⟨1⟩) (some ⟨2⟩) (some ⟨3⟩)
        : ABalancingBpCppPawn ℚ).FireShot
        (sampleEngine 0 0 1 0 noHit ⟨0, 0, 0⟩ (some ⟨0⟩)) ⟨1, 0, 0⟩).requests.filter
        Request.isSpawnActor = [] ∧
    ((ABalancingBpCppPawn.ctor 0 none (some ⟨1⟩) (some ⟨2⟩) (some ⟨3⟩)
        : ABalancingBpCppPawn ℚ).FireShot
        (sampleEngine 0 0 1 0 noHit ⟨0, 0, 0⟩ (some ⟨0⟩)) ⟨1, 0, 0⟩).pawn.bCanFire = false ∧
    ((ABalancingBpCppPawn.ctor 0 none (some ⟨1⟩) (some ⟨2⟩) (some ⟨3⟩)
        : ABalancingBpCppPawn ℚ).FireShot
        (sampleEngine 0 0 1 0 noHit ⟨0, 0, 0⟩ (some ⟨0⟩)) ⟨1, 0, 0⟩).requests.filter
        Request.isSetTimer =
      [Request.SetTimer TimerCallback.ShotTimerExpired (1 / 10) false] := by
  have h := FireShot_no_spawn_outside_modes
    (sampleEngine 0 0 1 0 noHit ⟨0, 0, 0⟩ (some ⟨0⟩))
    (ABalancingBpCppPawn.ctor 0 none (some ⟨1⟩) (some ⟨2⟩) (some ⟨3⟩)
        : ABalancingBpCppPawn ℚ) ⟨1, 0, 0⟩ ⟨0⟩
    rfl (by norm_num [FVector.SizeSquared]) rfl (by decide) (by decide) (by decide)
  exact ⟨h.1, h.2.1, h.2.2.1⟩

/-- C14: `HandleSwitchProjectile` changes `fireMode` and nothing else (`bCanFire`, the
timer handle, `MoveSpeed`, `GunOffset`, `FireRate` and `FireSound` stay) and issues no
request to the engine; `FireShot`, `Tick` and `ShotTimerExpired` leave `fireMode` as it
is, for every pawn and whatever the engine answers, also when the call stops at a
fault. -/
theorem fireMode_and_gate_independent {α : Type} [LinearOrderedField α]
    (p : ABalancingBpCppPawn α) :
    p.HandleSwitchProjectile =
      { p with fireMode := if p.fireMode + 1 > 3 then 1 else p.fireMode + 1 } ∧
    (p.HandleSwitchProjectile.bCanFire = p.bCanFire ∧
      p.HandleSwitchProjectile.TimerHandle_ShotTimerExpired = p.TimerHandle_ShotTimerExpired ∧
      p.HandleSwitchProjectile.MoveSpeed = p.MoveSpeed ∧
      p.HandleSwitchProjectile.GunOffset = p.GunOffset ∧
      p.HandleSwitchProjectile.FireRate = p.FireRate) ∧
    (call p Call.HandleSwitchProjectile).requests = [] ∧
    (∀ (e : Engine α) (d : FVector α), (p.FireShot e d).pawn.fireMode = p.fireMode) ∧
    (∀ (e : Engine α) (dt : α), (p.Tick e dt).pawn.fireMode = p.fireMode) ∧
    p.ShotTimerExpired.fireMode = p.fireMode := by
  have hrec : p.HandleSwitchProjectile =
      { p with fireMode := if p.fireMode + 1 > 3 then 1 else p.fireMode + 1 } := by
    unfold ABalancingBpCppPawn.HandleSwitchProjectile
    dsimp only
    split <;> rfl
  refine ⟨hrec, ?_, rfl, fun e d => FireShot_fireMode e p d,
    fun e dt => Tick_fireMode e p dt, rfl⟩
  rw [hrec]
  exact ⟨rfl, rfl, rfl, rfl, rfl⟩
